import Mathlib

/-!
# Verification of the GradioNL2SQL resilient query pipeline

Shallow embedding of the core pipeline of the GradioNL2SQL repository:
the query result cache (`src/utils/query_cache.py`), the enterprise schema
cache and circuit breaker (`src/tools/enterprise_llm_schema_analyst_tool.py`),
the airplane-mode router and SQL generator (`src/airplane_mode/`), and the
intelligent agent pipeline (`src/agents/intelligent_agent.py`).

External collaborators (Azure OpenAI calls, the database) are modelled as
oracle functions supplied through an environment record; repository code is
translated function by function.  Python wall-clock timestamps are modelled
as natural numbers, and the sha256-based cache key is abstracted as the
normalized (lower-cased, trimmed) request text itself.
-/

namespace NL2SQL

/-! ## JSON-like values modelling Python dictionaries

Results in the pipeline are Python dicts with heterogeneous values:
strings, booleans, integers, floats, lists and nested dicts.  We model them
as association lists of `JVal`; `Dict.find` is Python `d[k]` / `d.get(k)`
(first binding wins, and the dict literals in the source have distinct keys).
-/

inductive JVal where
  | s (x : String)
  | b (x : Bool)
  | n (x : Nat)
  | q (x : ℚ)
  | arr (xs : List JVal)
  | dict (xs : List (String × JVal))
deriving Repr

abbrev Dict := List (String × JVal)

def Dict.find (d : Dict) (k : String) : Option JVal :=
  List.lookup k d

/-- Python `d.get(k, default)` specialised to string values: a present
non-string value is returned through `str()`-like rendering by callers, so
we expose the raw option here. -/
def Dict.findStr (d : Dict) (k : String) : Option String :=
  match d.find k with
  | some (.s x) => some x
  | _ => none

/-- `result["success"]` truthiness test used by the pipeline (the source
always stores a genuine bool under this key). -/
def Dict.isSuccess (d : Dict) : Bool :=
  match d.find "success" with
  | some (.b x) => x
  | _ => false

/-- Insert-or-replace, the semantics of Python dict assignment. -/
def Dict.insert (d : Dict) (k : String) (v : JVal) : Dict :=
  (k, v) :: d.eraseP (fun p => p.1 == k)

/-! ## String helpers matching Python primitives -/

/-- Python `s.lower()` (ASCII case mapping; Python's richer unicode case
folding is not exercised by the embedded code paths). -/
def pyLower (s : String) : String :=
  String.mk (s.data.map Char.toLower)

/-- Python `s.strip()`: drop leading and trailing whitespace. -/
def pyStrip (s : String) : String :=
  String.mk
    (((s.data.dropWhile Char.isWhitespace).reverse.dropWhile
        Char.isWhitespace).reverse)

/-- Python `s.startswith(pre)`. -/
def pyStartsWith (s pre : String) : Bool :=
  pre.data.isPrefixOf s.data

/-- Python `s.endswith(suf)`. -/
def pyEndsWith (s suf : String) : Bool :=
  suf.data.reverse.isPrefixOf s.data.reverse

/-- Python `sub in s` substring containment. -/
def strContains (s sub : String) : Bool :=
  s.data.tails.any (fun t => sub.data.isPrefixOf t)

/-- Left-to-right non-overlapping replacement scan (`str.replace`).  The
fuel bounds consumed characters; `l.length` always suffices. -/
def replaceAux (pat rep : List Char) : Nat → List Char → List Char
  | 0, l => l
  | _, [] => []
  | fuel + 1, c :: rest =>
      if pat.isPrefixOf (c :: rest) then
        rep ++ replaceAux pat rep fuel ((c :: rest).drop pat.length)
      else c :: replaceAux pat rep fuel rest

/-- Python `s.replace(pat, rep)` for a non-empty `pat`. -/
def pyReplace (s pat rep : String) : String :=
  String.mk (replaceAux pat.data rep.data s.data.length s.data)

/-- Python `str(x)` rendering of a `JVal`, used only inside log strings
(abstracted: the exact commas/brackets of Python's repr are not reproduced). -/
def JVal.render : JVal → String
  | .s x => x
  | .b x => if x then "True" else "False"
  | .n x => toString x
  | .q x => toString x
  | .arr _ => "[...]"
  | .dict _ => "{...}"

/-! ## A small pattern language for the `re` patterns in the source

The source uses `re.search` / `re.match` with a fixed finite set of
patterns built from literals, `\s+`, `\s*`, `\w+`, `.*`, alternation and
optional groups.  `Pat.mtch p l` returns the list of possible remainders
after matching `p` against a prefix of `l`. -/

inductive Pat where
  | lit (s : String)
  | seqP (p1 p2 : Pat)
  | alt (p1 p2 : Pat)
  | opt (p : Pat)
  | ws1          -- `\s+`
  | ws0          -- `\s*`
  | word1        -- `\w+` (ASCII approximation of Python's unicode-aware `\w`)
  | anyStar      -- `.*`  (does not cross a newline, as in Python `re`)

/-- Word characters for `\w` (ASCII letters, digits, underscore). -/
def isWordChar (c : Char) : Bool :=
  c.isAlphanum || c == '_'

def Pat.mtch : Pat → List Char → List (List Char)
  | .lit s, l => if s.data.isPrefixOf l then [l.drop s.length] else []
  | .seqP p1 p2, l => (p1.mtch l).flatMap p2.mtch
  | .alt p1 p2, l => p1.mtch l ++ p2.mtch l
  | .opt p, l => l :: p.mtch l
  | .ws1, l =>
      let k := (l.takeWhile Char.isWhitespace).length
      (List.range k).map (fun i => l.drop (i + 1))
  | .ws0, l =>
      let k := (l.takeWhile Char.isWhitespace).length
      (List.range (k + 1)).map (fun i => l.drop i)
  | .word1, l =>
      let k := (l.takeWhile isWordChar).length
      (List.range k).map (fun i => l.drop (i + 1))
  | .anyStar, l =>
      let k := (l.takeWhile (fun c => c ≠ '\n')).length
      (List.range (k + 1)).map (fun i => l.drop i)

/-- `re.search(p, s)`: the pattern matches starting at some position. -/
def Pat.search (p : Pat) (s : String) : Bool :=
  (s.data.tails).any (fun t => !(p.mtch t).isEmpty)

/-- `re.match(p, s)` for a pattern of the form `^...$`: the whole string is
consumed from the start. -/
def Pat.matchFull (p : Pat) (s : String) : Bool :=
  (p.mtch s.data).any (fun r => r.isEmpty)

/-- `word` followed by an optional `s` (regex `words?`). -/
def Pat.plural (w : String) : Pat :=
  .seqP (.lit w) (.opt (.lit "s"))

/-! ## Schema data model (`src/database/schema_inspector.py`) -/

structure ColumnInfo where
  name : String
  data_type : String
  is_nullable : Bool
  is_primary_key : Bool
  is_foreign_key : Bool
deriving Repr, DecidableEq

structure TableInfo where
  schema : String
  name : String
  columns : List ColumnInfo
deriving Repr, DecidableEq

/-! ## CircuitBreaker (`enterprise_llm_schema_analyst_tool.py`, lines 37-77)

`CircuitBreaker.call` wraps one invocation of a fallible operation.  Time
(`time.time()`) is a natural-number parameter; the wrapped operation's
outcome is passed as an `Except` value, together with a flag recording
whether the operation was actually invoked. -/

inductive CBState where
  | closed
  | open_
  | halfOpen
deriving Repr, DecidableEq

structure CircuitBreaker where
  failure_threshold : Nat
  recovery_timeout : Nat
  failure_count : Nat
  last_failure_time : Option Nat
  state : CBState
deriving Repr, DecidableEq

/-- `CircuitBreaker.__init__(failure_threshold=5, recovery_timeout=60)`. -/
def CircuitBreaker.init (threshold timeout : Nat) : CircuitBreaker :=
  { failure_threshold := threshold
    recovery_timeout := timeout
    failure_count := 0
    last_failure_time := none
    state := .closed }

/-- `_should_attempt_reset`: `time.time() - last_failure_time >= recovery_timeout`. -/
def CircuitBreaker.shouldAttemptReset (cb : CircuitBreaker) (now : Nat) : Bool :=
  now - cb.last_failure_time.getD 0 ≥ cb.recovery_timeout

/-- `_on_success`: reset the failure count and close the circuit. -/
def CircuitBreaker.onSuccess (cb : CircuitBreaker) : CircuitBreaker :=
  { cb with failure_count := 0, state := .closed }

/-- `_on_failure`: count the failure, stamp the time, open at threshold. -/
def CircuitBreaker.onFailure (cb : CircuitBreaker) (now : Nat) : CircuitBreaker :=
  let cb := { cb with failure_count := cb.failure_count + 1,
                      last_failure_time := some now }
  if cb.failure_count ≥ cb.failure_threshold then { cb with state := .open_ } else cb

/-- Result of one `CircuitBreaker.call`: the outcome propagated to the
caller, the updated breaker, and whether the wrapped operation ran. -/
structure CBCallResult (α : Type) where
  result : Except String α
  breaker : CircuitBreaker
  invoked : Bool

/-- The `try`/`except` body of `CircuitBreaker.call` (lines 58-64): invoke
the operation, then `_on_success` / `_on_failure` and re-raise. -/
def CircuitBreaker.step (cb : CircuitBreaker) (now : Nat)
    (outcome : Except String α) : CBCallResult α :=
  match outcome with
  | .ok v => ⟨.ok v, cb.onSuccess, true⟩
  | .error e => ⟨.error e, cb.onFailure now, true⟩

/-- `CircuitBreaker.call` (lines 49-64).  `outcome` is what the wrapped
operation would produce if invoked. -/
def CircuitBreaker.call (cb : CircuitBreaker) (now : Nat)
    (outcome : Except String α) : CBCallResult α :=
  match cb.state with
  | .open_ =>
      if cb.shouldAttemptReset now then
        CircuitBreaker.step { cb with state := .halfOpen } now outcome
      else
        ⟨.error "Circuit breaker is OPEN", cb, false⟩
  | _ => CircuitBreaker.step cb now outcome

/-! ## QueryResultCache (`src/utils/query_cache.py`)

The sha256-truncated cache key is abstracted as the normalized query text
itself (the normalization `query.lower().strip()` is kept). -/

structure QRC where
  query_cache : List (String × Dict × Nat)   -- key ↦ (result, timestamp)
  cache_ttl : Nat
  cache_hits : Nat
  cache_misses : Nat

/-- `QueryResultCache.__init__(cache_ttl)`. -/
def QRC.init (ttl : Nat) : QRC :=
  { query_cache := [], cache_ttl := ttl, cache_hits := 0, cache_misses := 0 }

/-- `_get_cache_key`: sha256 of the normalized query, abstracted as the
normalized text. -/
def cacheKey (query : String) : String :=
  pyStrip (pyLower query)

/-- `_is_cache_valid`: `time.time() - timestamp < self._cache_ttl`. -/
def QRC.isCacheValid (c : QRC) (now ts : Nat) : Bool :=
  now - ts < c.cache_ttl

/-- `get_cached_result` (lines 36-53).  On a valid hit the stored dict is
returned (`result.copy()` — a value in this model); an expired entry is
deleted. -/
def QRC.getCachedResult (c : QRC) (now : Nat) (query : String) :
    Option Dict × QRC :=
  let key := cacheKey query
  match c.query_cache.lookup key with
  | some (result, ts) =>
      if c.isCacheValid now ts then
        (some result, { c with cache_hits := c.cache_hits + 1 })
      else
        let c := { c with
          query_cache := c.query_cache.eraseP (fun p => p.1 == key) }
        (none, { c with cache_misses := c.cache_misses + 1 })
  | none => (none, { c with cache_misses := c.cache_misses + 1 })

/-- `cache_result` (lines 55-59): store `result.copy()` with the current
time under the normalized key (dict assignment replaces). -/
def QRC.cacheResult (c : QRC) (now : Nat) (query : String) (result : Dict) :
    QRC :=
  let key := cacheKey query
  { c with query_cache :=
      (key, result, now) :: c.query_cache.eraseP (fun p => p.1 == key) }

/-! ## EnterpriseSchemaCache (`enterprise_llm_schema_analyst_tool.py`, 79-129)

Specialised to the schema-cache use (`data` is a table list).  The
background-refresh executor is asynchronous and does not affect the value a
`get`/`set` call returns, so it is not part of this sequential model. -/

structure ESCacheEntry where
  data : List TableInfo
  timestamp : Nat
  ttl : Nat
  access_count : Nat
  last_access : Nat
deriving Repr, DecidableEq

structure ESCache where
  default_ttl : Nat
  max_size : Nat
  cache : List (String × ESCacheEntry)
deriving Repr, DecidableEq

def ESCache.init (ttl size : Nat) : ESCache :=
  { default_ttl := ttl, max_size := size, cache := [] }

/-- `EnterpriseSchemaCache.get` (lines 89-107).  NOTE the expiry test is
strict: `current_time - entry.timestamp > entry.ttl`. -/
def ESCache.get (c : ESCache) (now : Nat) (key : String) :
    Option (List TableInfo) × ESCache :=
  match c.cache.lookup key with
  | none => (none, c)
  | some entry =>
      if now - entry.timestamp > entry.ttl then
        (none, { c with cache := c.cache.eraseP (fun p => p.1 == key) })
      else
        let entry := { entry with access_count := entry.access_count + 1,
                                  last_access := now }
        (some entry.data,
         { c with cache :=
             (key, entry) :: c.cache.eraseP (fun p => p.1 == key) })

/-- `_evict_lru`: delete the entry with the minimal `last_access`
(Python `min` returns the first minimum in iteration order). -/
def ESCache.evictLru (c : ESCache) : ESCache :=
  match c.cache with
  | [] => c
  | e :: rest =>
      let lruKey := (rest.foldl
        (fun best p => if p.2.last_access < best.2.last_access then p else best)
        e).1
      { c with cache := c.cache.eraseP (fun p => p.1 == lruKey) }

/-- `EnterpriseSchemaCache.set` (lines 109-121). -/
def ESCache.set (c : ESCache) (now : Nat) (key : String)
    (value : List TableInfo) (ttl : Option Nat) : ESCache :=
  let c := if c.cache.length ≥ c.max_size then c.evictLru else c
  let entry : ESCacheEntry :=
    { data := value, timestamp := now, ttl := ttl.getD c.default_ttl,
      access_count := 1, last_access := now }
  { c with cache := (key, entry) :: c.cache.eraseP (fun p => p.1 == key) }

/-! ## EnterpriseSchemaAnalyst._get_schema_cached (lines 204-237)

The circuit-breaker-protected load (`_load_schema_with_circuit_breaker`,
including the `CircuitOpenError` short-circuit) is the fallible external
step; its outcome for this call is `loadResult`.  The background refresh
triggered on an old-but-valid hit is asynchronous and never changes what
this call returns, so it does not appear in the sequential result. -/

structure AnalystState where
  schemaCache : ESCache
  loadResult : Except String (List TableInfo)

def getSchemaCached (st : AnalystState) (now : Nat) :
    List TableInfo × AnalystState :=
  let key := "database_schema"
  let (hit, c1) := st.schemaCache.get now key
  match hit with
  | some data => (data, { st with schemaCache := c1 })
  | none =>
      match st.loadResult with
      | .ok schema =>
          (schema, { st with schemaCache := c1.set now key schema (some 1800) })
      | .error _ =>
          -- `stale_data = self.schema_cache._cache.get(cache_key)` (line 233):
          -- a direct probe of the underlying dict, bypassing the TTL check.
          match c1.cache.lookup key with
          | some entry => (entry.data, { st with schemaCache := c1 })
          | none => ([], { st with schemaCache := c1 })

/-! ## AirplaneModeRouter (`src/airplane_mode/query_router.py`) -/

/-- `llm_required_patterns` with their regex source text. -/
def llmRequiredPatterns : List (String × Pat) :=
  [ ("complex\\s+join", .seqP (.lit "complex") (.seqP .ws1 (.lit "join"))),
    ("nested\\s+query", .seqP (.lit "nested") (.seqP .ws1 (.lit "query"))),
    ("subquery", .lit "subquery"),
    ("case\\s+when", .seqP (.lit "case") (.seqP .ws1 (.lit "when"))),
    ("window\\s+function", .seqP (.lit "window") (.seqP .ws1 (.lit "function"))),
    ("recursive", .lit "recursive"),
    ("pivot", .lit "pivot"),
    ("calculate.*formula", .seqP (.lit "calculate") (.seqP .anyStar (.lit "formula"))),
    ("if.*then.*else",
      .seqP (.lit "if") (.seqP .anyStar (.seqP (.lit "then") (.seqP .anyStar (.lit "else"))))),
    ("multiple\\s+conditions.*and.*or",
      .seqP (.lit "multiple") (.seqP .ws1 (.seqP (.lit "conditions")
        (.seqP .anyStar (.seqP (.lit "and") (.seqP .anyStar (.lit "or"))))))) ]

/-- `(all\s+)?` optional group. -/
def optAll : Pat := .opt (.seqP (.lit "all") .ws1)

/-- `airplane_patterns`: (category, regex source, pattern), flattened in the
source's dict-and-list iteration order. -/
def airplanePatterns : List (String × String × Pat) :=
  [ ("simple_show", "show\\s+(all\\s+)?tables?",
      .seqP (.lit "show") (.seqP .ws1 (.seqP optAll (.plural "table")))),
    ("simple_show", "list\\s+(all\\s+)?tables?",
      .seqP (.lit "list") (.seqP .ws1 (.seqP optAll (.plural "table")))),
    ("simple_show", "show\\s+schema",
      .seqP (.lit "show") (.seqP .ws1 (.lit "schema"))),
    ("simple_show", "describe\\s+database",
      .seqP (.lit "describe") (.seqP .ws1 (.lit "database"))),
    ("basic_select", "show\\s+(all\\s+)?(customers?|users?)",
      .seqP (.lit "show") (.seqP .ws1 (.seqP optAll
        (.alt (.plural "customer") (.plural "user"))))),
    ("basic_select", "show\\s+(all\\s+)?(products?|items?)",
      .seqP (.lit "show") (.seqP .ws1 (.seqP optAll
        (.alt (.plural "product") (.plural "item"))))),
    ("basic_select", "show\\s+(all\\s+)?(orders?|sales?)",
      .seqP (.lit "show") (.seqP .ws1 (.seqP optAll
        (.alt (.plural "order") (.plural "sale"))))),
    ("basic_select", "list\\s+(all\\s+)?(customers?|products?|orders?)",
      .seqP (.lit "list") (.seqP .ws1 (.seqP optAll
        (.alt (.plural "customer") (.alt (.plural "product") (.plural "order")))))),
    ("simple_count", "how\\s+many\\s+(customers?|products?|orders?)",
      .seqP (.lit "how") (.seqP .ws1 (.seqP (.lit "many") (.seqP .ws1
        (.alt (.plural "customer") (.alt (.plural "product") (.plural "order"))))))),
    ("simple_count", "count\\s+(customers?|products?|orders?)",
      .seqP (.lit "count") (.seqP .ws1
        (.alt (.plural "customer") (.alt (.plural "product") (.plural "order"))))),
    ("simple_count", "total\\s+(customers?|products?|orders?)",
      .seqP (.lit "total") (.seqP .ws1
        (.alt (.plural "customer") (.alt (.plural "product") (.plural "order"))))),
    ("basic_aggregates", "total\\s+sales?",
      .seqP (.lit "total") (.seqP .ws1 (.plural "sale"))),
    ("basic_aggregates", "sum\\s+of\\s+sales?",
      .seqP (.lit "sum") (.seqP .ws1 (.seqP (.lit "of") (.seqP .ws1 (.plural "sale"))))),
    ("basic_aggregates", "show\\s+sales?\\s+by\\s+(region|customer|product)",
      .seqP (.lit "show") (.seqP .ws1 (.seqP (.plural "sale") (.seqP .ws1
        (.seqP (.lit "by") (.seqP .ws1
          (.alt (.lit "region") (.alt (.lit "customer") (.lit "product"))))))))),
    ("basic_aggregates", "sales?\\s+by\\s+(region|customer|product)",
      .seqP (.plural "sale") (.seqP .ws1 (.seqP (.lit "by") (.seqP .ws1
        (.alt (.lit "region") (.alt (.lit "customer") (.lit "product"))))))) ]

/-- `AirplaneModeRouter.should_use_airplane_mode` (lines 62-87):
`(use_airplane_mode, reasoning, metadata)`. -/
def shouldUseAirplaneMode (query : String) : Bool × String × Dict :=
  let ql := pyStrip (pyLower query)
  match llmRequiredPatterns.find? (fun p => p.2.search ql) with
  | some (src, _) =>
      (false, "Complex pattern detected: " ++ src, [("complexity", .s "high")])
  | none =>
      match airplanePatterns.find? (fun p => p.2.2.search ql) with
      | some (cat, src, _) =>
          (true, "Simple pattern matched: " ++ cat,
           [("category", .s cat), ("pattern", .s src),
            ("confidence", .q (9 / 10))])
      | none =>
          (false, "Unknown pattern, using LLM for safety",
           [("complexity", .s "unknown")])

/-! ## AirplaneModeSQLGenerator (`src/airplane_mode/sql_generator.py`)

The tables handed to `generate_sql_fast` are modelled in the dict format
(`{'name': ..., 'schema': ..., 'columns': [{'name': ..., 'primary_key':
...}]}`) that the repository's own callers pass.  The measured wall-clock
`processing_time` interpolated into the output (format `.3f`) is a
parameter `elapsed`, carrying the already-formatted digits. -/

structure DCol where
  name : String
  primary_key : Bool
deriving Repr, DecidableEq

structure DTable where
  name : String
  schema : String
  columns : List DCol
deriving Repr, DecidableEq

def braceL : Char := Char.ofNat 123
def braceR : Char := Char.ofNat 125

def placeholder (k : String) : String :=
  String.singleton braceL ++ k ++ String.singleton braceR

/-- `column_patterns` (insertion order preserved). -/
def columnPatterns : List (String × List String) :=
  [ ("customer_id", ["customerid", "customer_id", "custid", "id"]),
    ("customer_name", ["customername", "customer_name", "name", "fullname", "firstname"]),
    ("product_id", ["productid", "product_id", "id"]),
    ("product_name", ["productname", "product_name", "name", "title"]),
    ("order_id", ["orderid", "order_id", "salesorderid", "id"]),
    ("order_date", ["orderdate", "order_date", "date", "created_date", "salesorderdate"]),
    ("amount_column", ["total", "amount", "totalprice", "subtotal", "totaldue"]),
    ("quantity_column", ["quantity", "qty", "orderqty"]),
    ("price_column", ["price", "unitprice", "listprice"]),
    ("address_id", ["addressid", "address_id", "id"]),
    ("region_column", ["region", "state", "stateprovince", "country", "territory"]) ]

/-- `_find_table_by_type` (lines 103-125). -/
def findTableByType (tables : List DTable) (tableType : String) : Option DTable :=
  let typePatterns : List (String × List String) :=
    [ ("customer", ["customer", "client", "user", "person"]),
      ("product", ["product", "item", "catalog"]),
      ("sales", ["sales", "order"]),
      ("order", ["order", "sales"]),
      ("sales_detail", ["orderdetail", "salesorderdetail", "detail"]),
      ("address", ["address", "location"]) ]
  let patterns := (typePatterns.lookup tableType).getD [tableType]
  tables.find? (fun t => patterns.any (fun p => strContains (pyLower t.name) p))

/-- `_find_column_by_pattern` (lines 127-165). -/
def findColumnByPattern (table : DTable) (columnType : String) : Option String :=
  let patterns := (columnPatterns.lookup columnType).getD [columnType]
  match table.columns.find? (fun c => patterns.any (fun p => strContains (pyLower c.name) p)) with
  | some c => some c.name
  | none =>
      if pyEndsWith columnType "_id" && !table.columns.isEmpty then
        match table.columns.find? (fun c => c.primary_key) with
        | some c => some c.name
        | none => (table.columns.head?).map (fun c => c.name)
      else
        none

/-- One `sql_templates` row: (name, regex source, pattern, template,
tables_needed). -/
structure SqlTemplate where
  tname : String
  patternSrc : String
  pat : Pat
  template : String
  tablesNeeded : List String

def sqlTemplates : List SqlTemplate :=
  [ ⟨"show_all_customers", "show\\s+(all\\s+)?customers?",
      .seqP (.lit "show") (.seqP .ws1 (.seqP optAll (.plural "customer"))),
      "SELECT * FROM {customer_table} ORDER BY {customer_id}", ["customer"]⟩,
    ⟨"show_all_products", "show\\s+(all\\s+)?products?",
      .seqP (.lit "show") (.seqP .ws1 (.seqP optAll (.plural "product"))),
      "SELECT * FROM {product_table} ORDER BY {product_id}", ["product"]⟩,
    ⟨"show_all_orders", "show\\s+(all\\s+)?(orders?|sales?)",
      .seqP (.lit "show") (.seqP .ws1 (.seqP optAll
        (.alt (.plural "order") (.plural "sale")))),
      "SELECT * FROM {order_table} ORDER BY {order_date} DESC", ["order", "sales"]⟩,
    ⟨"count_customers", "(how\\s+many|count)\\s+customers?",
      .seqP (.alt (.seqP (.lit "how") (.seqP .ws1 (.lit "many"))) (.lit "count"))
        (.seqP .ws1 (.plural "customer")),
      "SELECT COUNT(*) as customer_count FROM {customer_table}", ["customer"]⟩,
    ⟨"count_products", "(how\\s+many|count)\\s+products?",
      .seqP (.alt (.seqP (.lit "how") (.seqP .ws1 (.lit "many"))) (.lit "count"))
        (.seqP .ws1 (.plural "product")),
      "SELECT COUNT(*) as product_count FROM {product_table}", ["product"]⟩,
    ⟨"total_sales", "total\\s+sales?",
      .seqP (.lit "total") (.seqP .ws1 (.plural "sale")),
      "SELECT SUM({amount_column}) as total_sales FROM {sales_table}", ["sales", "order"]⟩,
    ⟨"sales_by_customer", "sales?\\s+by\\s+customers?",
      .seqP (.plural "sale") (.seqP .ws1 (.seqP (.lit "by") (.seqP .ws1 (.plural "customer")))),
      "\n                SELECT c.{customer_name}, SUM(s.{amount_column}) as total_sales\n                FROM {customer_table} c\n                JOIN {sales_table} s ON c.{customer_id} = s.{customer_id}\n                GROUP BY c.{customer_id}, c.{customer_name}\n                ORDER BY total_sales DESC\n                ",
      ["customer", "sales"]⟩,
    ⟨"sales_by_region", "sales?\\s+by\\s+region",
      .seqP (.plural "sale") (.seqP .ws1 (.seqP (.lit "by") (.seqP .ws1 (.lit "region")))),
      "\n                SELECT a.{region_column}, SUM(s.{amount_column}) as total_sales\n                FROM {sales_table} s\n                JOIN {customer_table} c ON s.{customer_id} = c.{customer_id}\n                JOIN {address_table} a ON c.{address_id} = a.{address_id}\n                GROUP BY a.{region_column}\n                ORDER BY total_sales DESC\n                ",
      ["sales", "customer", "address"]⟩,
    ⟨"sales_by_product", "sales?\\s+by\\s+products?",
      .seqP (.plural "sale") (.seqP .ws1 (.seqP (.lit "by") (.seqP .ws1 (.plural "product")))),
      "\n                SELECT p.{product_name}, SUM(sd.{quantity_column} * sd.{price_column}) as total_sales\n                FROM {product_table} p\n                JOIN {sales_detail_table} sd ON p.{product_id} = sd.{product_id}\n                GROUP BY p.{product_id}, p.{product_name}\n                ORDER BY total_sales DESC\n                ",
      ["product", "sales_detail"]⟩ ]

/-- Insert-or-replace preserving first-insertion order (Python dict
assignment semantics, including iteration order). -/
def upsert (m : List (String × String)) (k v : String) : List (String × String) :=
  if m.any (fun p => p.1 == k) then
    m.map (fun p => if p.1 == k then (k, v) else p)
  else
    m ++ [(k, v)]

/-- Build `table_mappings` and `column_mappings` for one matched template
(lines 182-203). -/
def buildMappings (tables : List DTable) (needed : List String) :
    List (String × String) × List (String × String) :=
  needed.foldl
    (fun (acc : List (String × String) × List (String × String)) tableType =>
      match findTableByType tables tableType with
      | none => acc
      | some t =>
          let tm := upsert acc.1 (tableType ++ "_table") (t.schema ++ "." ++ t.name)
          let cm := columnPatterns.foldl
            (fun cm kp =>
              let columnType := kp.1
              if pyStartsWith columnType tableType ||
                 columnType ∈ ["amount_column", "quantity_column",
                               "price_column", "region_column"] then
                match findColumnByPattern t columnType with
                | some c => upsert cm columnType c
                | none => cm
              else cm)
            acc.2
          (tm, cm))
    ([], [])

/-- `re.sub(r'\x7b[^\x7d]+\x7d', 'UNKNOWN_COLUMN', s)`: replace every
non-empty brace-delimited run.  Fuel-driven scan (fuel bounds the number of
characters consumed, `l.length` always suffices). -/
def cleanupAux : Nat → List Char → List Char
  | 0, l => l
  | _, [] => []
  | fuel + 1, c :: rest =>
      if c = braceL then
        let inner := rest.takeWhile (fun d => d ≠ braceR)
        match rest.drop inner.length with
        | d :: rest2 =>
            if d = braceR && !inner.isEmpty then
              "UNKNOWN_COLUMN".data ++ cleanupAux fuel rest2
            else c :: cleanupAux fuel rest
        | [] => c :: cleanupAux fuel rest
      else c :: cleanupAux fuel rest

def cleanupPlaceholders (s : String) : String :=
  String.mk (cleanupAux s.data.length s.data)

/-- `' '.join(template_sql.split())`. -/
def pySplitJoin (s : String) : String :=
  String.intercalate " "
    (((s.data.splitOnP Char.isWhitespace).map String.mk).filter
      (fun w => w ≠ ""))

/-- `generate_sql_fast` (lines 167-248).  `elapsed` is the `.3f`-formatted
wall-clock duration interpolated into the comment header. -/
def generateSqlFast (query : String) (tables : List DTable) (elapsed : String) :
    String :=
  match sqlTemplates.find? (fun t => t.pat.search (pyStrip (pyLower query))) with
  | some t =>
      let tm := (buildMappings tables t.tablesNeeded).1
      let cm := (buildMappings tables t.tablesNeeded).2
      let sql1 := tm.foldl (fun s kv => pyReplace s (placeholder kv.1) kv.2) t.template
      let sql2 := cm.foldl (fun s kv => pyReplace s (placeholder kv.1) kv.2) sql1
      let sql3 := cleanupPlaceholders sql2
      let formatted := pySplitJoin sql3
      "-- AIRPLANE MODE SQL (⚡ " ++ elapsed ++ "s)\n" ++
        "-- Template: " ++ t.tname ++ "\n" ++
        "-- Pattern: " ++ t.patternSrc ++ "\n\n" ++ formatted
  | none =>
      match tables.head? with
      | some mainTable =>
          "-- AIRPLANE MODE FALLBACK SQL (⚡ " ++ elapsed ++ "s)\n" ++
            "-- No specific template matched, showing basic query\n\n" ++
            "SELECT * FROM " ++ mainTable.schema ++ "." ++ mainTable.name ++
            " ORDER BY 1"
      | none => "-- No tables available for SQL generation"

/-! ## The intelligent agent pipeline (`src/agents/intelligent_agent.py`)

External collaborators are an environment of oracle functions, modelled at
the boundary where the repository calls them:

* `getSchema` — `LLMSchemaAnalystTool._get_database_schema`: catches every
  exception and returns `[]` on error (lines 50-68), so it is total;
* `analyzeIntent` — `IntelligentOrchestrator.analyze_query_intent`: catches
  internally and falls back to `_fallback_analysis`, total;
* `analyzeSchema` — `LLMSchemaAnalystTool.analyze_schema`: catches
  internally, always returns a string;
* `decideApproach` — `IntelligentOrchestrator.decide_processing_approach`:
  rule-based with an internally-caught LLM escalation, total;
* `genSQL` — `SQLGenerationTool.forward`: catches internally and returns an
  `-- Error ...` string on failure, total;
* `execQuery` — `DatabaseConnection.execute_query`: re-raises on failure,
  hence `Except`;
* `correctSQL` — `ErrorCorrectionTool.forward`: catches internally, total;
* `analyzeFailure` — `IntelligentOrchestrator.analyze_failure_and_retry`:
  catches internally (lines 390-392), total.

Quantifying theorems over every such environment covers every behaviour
(value or internally-absorbed exception) of the collaborators. -/

structure Env where
  getSchema : List TableInfo
  analyzeIntent : String → String → Dict
  analyzeSchema : String → String
  decideApproach : String → Dict → String → Dict
  genSQL : String → String → String
  execQuery : String → Except String (List JVal)
  correctSQL : String → String → String → String
  analyzeFailure : String → List String → List String → String → Dict

/-- Counts of calls to the generation and execution collaborators made
during one computation. -/
structure Calls where
  gen : Nat
  exec : Nat
deriving Repr, DecidableEq

def Calls.add (a b : Calls) : Calls := ⟨a.gen + b.gen, a.exec + b.exec⟩

/-! ### `_is_simple_query` (lines 425-467) -/

def complexIndicators : List String :=
  [ "join", "group by", "order by", "having", "union", "subquery", "nested",
    "sorted by", "sort by", "aggregate", "sum", "avg", "average",
    "total", "revenue", "sales", "by category", "by product", "including",
    "where", "inner", "outer", "left", "right", "distinct", "limit", "top",
    "calculated", "computed", "analysis", "report", "breakdown", "grouped",
    "by ", "group", "multiple", "between", "range", "filter", "condition",
    "count by", "count of", "count per" ]

def simpleCountPatterns : List Pat :=
  [ .seqP (.lit "count") (.seqP .ws1 (.seqP .word1 .ws0)),
    .seqP (.lit "how many") (.seqP .ws1 (.seqP .word1 .ws0)),
    .seqP (.alt (.lit "get") (.lit "show")) (.seqP .ws1 (.seqP (.lit "count")
      (.seqP .ws1 (.seqP (.lit "of") (.seqP .ws1 (.seqP .word1 .ws0)))))) ]

def simpleListPatterns : List Pat :=
  [ .seqP (.alt (.lit "select") (.alt (.lit "get") (.alt (.lit "show") (.lit "list"))))
      (.seqP .ws1 (.seqP .word1 .ws0)),
    .seqP (.alt (.lit "list") (.lit "show"))
      (.seqP .ws1 (.seqP (.lit "all") (.seqP .ws1 (.seqP .word1 .ws0)))) ]

def isSimpleQuery (query : String) : Bool :=
  let ql := pyStrip (pyLower query)
  if complexIndicators.any (fun ind => strContains ql ind) then false
  else if simpleCountPatterns.any (fun p => p.matchFull ql) then true
  else if pyStartsWith ql "list " || pyStartsWith ql "show " ||
          pyStartsWith ql "get " || pyStartsWith ql "find " then true
  else if simpleListPatterns.any (fun p => p.matchFull ql) then true
  else false

/-! ### `_create_schema_summary` (`llm_schema_analyst_tool.py`, 318-338) -/

def summaryColLine (c : ColumnInfo) : String :=
  "  - " ++ c.name ++ ": " ++ c.data_type ++
    (if c.is_primary_key then " [PK]" else "") ++
    (if c.is_foreign_key then " [FK]" else "") ++ "\n"

def tableSummaryBlock (t : TableInfo) : String :=
  let pkColumns := t.columns.filter (fun c => c.is_primary_key)
  let fkColumns := t.columns.filter (fun c => c.is_foreign_key)
  let otherColumns := t.columns.filter
    (fun c => !c.is_primary_key && !c.is_foreign_key)
  let displayed := pkColumns ++ fkColumns ++ otherColumns.take 3
  "\n" ++ t.schema ++ "." ++ t.name ++ ":\n" ++
    String.join (displayed.map summaryColLine) ++
    (if t.columns.length > displayed.length then
      "  ... and " ++ toString (t.columns.length - displayed.length) ++
        " more columns\n"
     else "")

def createSchemaSummary (tables : List TableInfo) : String :=
  "Database Tables:\n" ++ String.join (tables.map tableSummaryBlock)

/-! ### Full orchestration (`_process_with_full_orchestration`, 180-228,
and `_execute_intelligent_approach`, 230-265) -/

/-- The error dict built in the `except` branch of
`_process_with_full_orchestration` (lines 220-228). -/
def orchestrationErrorDict (msg : String) : Dict :=
  [ ("success", .b false), ("sql", .s ""), ("results", .arr []),
    ("schema_used", .s ""),
    ("log", .s ("Intelligent processing failed: " ++ msg)),
    ("approach", .s "error") ]

/-- `_handle_execution_error` (lines 375-405). -/
def handleExecutionError (env : Env) (sql error schemaContext : String) :
    Dict × Calls :=
  let corrected := env.correctSQL sql error schemaContext
  match env.execQuery corrected with
  | .ok results =>
      ([ ("success", .b true), ("sql", .s corrected), ("results", .arr results),
         ("schema_used", .s schemaContext),
         ("log", .s ("Error corrected successfully. " ++
           toString results.length ++ " rows returned.")),
         ("original_sql", .s sql), ("original_error", .s error),
         ("approach", .s "error_correction") ], ⟨0, 1⟩)
  | .error retryError =>
      ([ ("success", .b false), ("sql", .s corrected), ("results", .arr []),
         ("schema_used", .s schemaContext),
         ("log", .s "Both original and corrected queries failed."),
         ("original_sql", .s sql), ("original_error", .s error),
         ("retry_error", .s retryError),
         ("approach", .s "error_correction_failed") ], ⟨0, 1⟩)

/-- `_direct_generation_approach` (lines 267-297). -/
def directGeneration (env : Env) (query schemaContext : String)
    (llmModel : JVal) : Dict × Calls :=
  let sql := env.genSQL query schemaContext
  match env.execQuery sql with
  | .ok results =>
      ([ ("success", .b true), ("sql", .s sql), ("results", .arr results),
         ("schema_used", .s schemaContext),
         ("log", .s ("Direct generation successful. " ++
           toString results.length ++ " rows returned.")),
         ("approach", .s "direct_generation"), ("llm_model", llmModel) ],
       ⟨1, 1⟩)
  | .error e =>
      let (d, c) := handleExecutionError env sql e schemaContext
      (d, ⟨1, 1 + c.exec⟩)

/-- The generation context of one refinement iteration (lines 311-313). -/
def mkIterContext (schemaContext : String) (attempts errors : List String) :
    String :=
  if attempts.isEmpty then schemaContext
  else
    schemaContext ++ "\n\nPrevious attempts failed:\n" ++
      String.intercalate "\n"
        ((attempts.zip errors).map
          (fun p => "SQL: " ++ p.1 ++ "\nError: " ++ p.2))

/-- `failure_analysis.get('diagnosis', 'Analysis failed')` rendered into
the log f-string. -/
def diagStr (diag : Dict) : String :=
  match diag.find "diagnosis" with
  | some v => v.render
  | none => "Analysis failed"

/-- Outcome of the iterative-refinement loop, including the verification
trace: the context string passed to each generation call, and the final
accumulated attempt/error lists. -/
structure IterOut where
  result : Dict
  calls : Calls
  contexts : List String
  attempts : List String
  errors : List String

/-- The `for iteration in range(max_iterations)` loop of
`_iterative_refinement_approach` (lines 299-348).  `remaining` counts the
iterations left, `iterDone` those already failed.  `sql_generator.forward`
never raises (it catches internally), so every failed iteration appends the
freshly generated candidate together with the execution error. -/
def iterLoop (env : Env) (query schemaContext : String) (llmModel : JVal)
    (maxIter : Nat) :
    Nat → Nat → List String → List String → IterOut
  | 0, _, attempts, errors =>
      let diag := env.analyzeFailure query attempts errors schemaContext
      { result :=
          [ ("success", .b false),
            ("sql", .s ((attempts.getLast?).getD "")),
            ("results", .arr []),
            ("schema_used", .s schemaContext),
            ("log", .s ("Iterative refinement failed after " ++
              toString maxIter ++ " attempts. " ++ diagStr diag)),
            ("approach", .s "iterative_refinement"),
            ("iterations", .n maxIter),
            ("failure_analysis", .dict diag),
            ("sql_attempts", .arr (attempts.map .s)),
            ("errors", .arr (errors.map .s)) ],
        calls := ⟨0, 0⟩, contexts := [],
        attempts := attempts, errors := errors }
  | remaining + 1, iterDone, attempts, errors =>
      let context := mkIterContext schemaContext attempts errors
      let sql := env.genSQL query context
      match env.execQuery sql with
      | .ok results =>
          { result :=
              [ ("success", .b true), ("sql", .s sql),
                ("results", .arr results),
                ("schema_used", .s schemaContext),
                ("log", .s ("Iterative refinement successful on iteration " ++
                  toString (iterDone + 1) ++ ". " ++
                  toString results.length ++ " rows returned.")),
                ("approach", .s "iterative_refinement"),
                ("iterations", .n (iterDone + 1)),
                ("llm_model", llmModel) ],
            calls := ⟨1, 1⟩, contexts := [context],
            attempts := attempts, errors := errors }
      | .error e =>
          let o := iterLoop env query schemaContext llmModel maxIter
            remaining (iterDone + 1) (attempts ++ [sql]) (errors ++ [e])
          { o with calls := ⟨o.calls.gen + 1, o.calls.exec + 1⟩,
                   contexts := context :: o.contexts }

/-- `_iterative_refinement_approach` entry. -/
def iterativeRefinement (env : Env) (query schemaContext : String)
    (llmModel : JVal) (maxIter : Nat) : IterOut :=
  iterLoop env query schemaContext llmModel maxIter maxIter 0 [] []

/-- `_stored_procedure_approach` (lines 358-373).  The agent never
initialises `self.stored_proc_executor`, so the call raises
`AttributeError`, which the method's own `except` converts into this dict. -/
def storedProcedureDict : Dict :=
  [ ("success", .b false), ("sql", .s ""), ("results", .arr []),
    ("schema_used", .s ""),
    ("log", .s ("Stored procedure approach failed: " ++
      "\x27IntelligentText2SQLAgent\x27 object has no attribute " ++
      "\x27stored_proc_executor\x27")),
    ("approach", .s "stored_procedure") ]

/-- Stand-in for Python's `str(TypeError)` when
`approach.get("expected_iterations", 2)` yields a non-integer and
`range(...)` raises inside the orchestration `try`. -/
def nonIntIterationsMsg : String :=
  "expected_iterations is not an integer"

/-- `_execute_intelligent_approach` (lines 230-265). -/
def executeIntelligentApproach (env : Env) (query : String) (approach : Dict)
    (schemaContext : String) (intent : Dict) : Dict × Calls :=
  -- `approach.get("approach", "direct_generation")`: a missing key takes the
  -- default string; a present non-string value matches no dispatch branch
  -- and ends in the final `else`, which is the same direct-generation call.
  let approachType :=
    match approach.find "approach" with
    | some (.s x) => x
    | _ => "direct_generation"
  let llmModel := (approach.find "llm_model").getD (.s "gpt-4o-mini")
  if approachType = "iterative_refinement" then
    match approach.find "expected_iterations" with
    | none =>
        let o := iterativeRefinement env query schemaContext llmModel 2
        (o.result, o.calls)
    | some (.n k) =>
        let o := iterativeRefinement env query schemaContext llmModel k
        (o.result, o.calls)
    | some _ => (orchestrationErrorDict nonIntIterationsMsg, ⟨0, 0⟩)
  else if approachType = "decompose_query" then
    let o := iterativeRefinement env query schemaContext llmModel 3
    (o.result, o.calls)
  else if approachType = "clarify_requirements" then
    ([ ("success", .b false), ("sql", .s ""), ("results", .arr []),
       ("schema_used", .s schemaContext),
       ("log", .s ("Query is ambiguous and requires clarification. " ++
         "Please provide more specific details about what you want to analyze.")),
       ("clarification_needed", .b true),
       ("suggestions", (intent.find "challenges").getD (.arr [])) ], ⟨0, 0⟩)
  else if approachType = "use_stored_procedure" then
    (storedProcedureDict, ⟨0, 0⟩)
  else
    directGeneration env query schemaContext llmModel

/-- `_process_with_full_orchestration` (lines 180-228).  All four analysis
steps are total at this boundary, so the surrounding `try` only fires for
the non-integer-iterations case handled inside the dispatch. -/
def processWithFullOrchestration (env : Env) (query : String) : Dict × Calls :=
  let tables := env.getSchema
  let schemaSummary := createSchemaSummary tables
  let intent := env.analyzeIntent query schemaSummary
  let schemaContext := env.analyzeSchema query
  let approach := env.decideApproach query intent schemaContext
  executeIntelligentApproach env query approach schemaContext intent

/-! ### Fast path (`_handle_simple_query`, 469-547, and
`_generate_simple_sql_template`, 590-614) -/

def tableKeywordGroups : List (List String) :=
  [ ["customer", "client"], ["product", "item"], ["order", "sale"],
    ["employee", "staff", "worker"], ["invoice", "bill"],
    ["address", "location"] ]

/-- The likely-table scan (lines 493-501): the first table such that some
keyword group matches both the query and the table name. -/
def findLikelyTable (tables : List TableInfo) (queryLower : String) :
    Option TableInfo :=
  tables.find? (fun t => tableKeywordGroups.any (fun g =>
    g.any (fun kw => strContains queryLower kw) &&
    g.any (fun kw => strContains (pyLower t.name) kw)))

/-- The schema-context f-string (lines 511-517). -/
def mkFastPathSchemaContext (t : TableInfo) : String :=
  let schemaName := if t.schema = "" then "dbo" else t.schema
  let fullName := if t.schema = "" then t.name else t.schema ++ "." ++ t.name
  "Database: Azure SQL Server\nSchema: " ++ schemaName ++
    "\nTable: " ++ t.name ++
    "\nFull Table Name: " ++ fullName ++
    "\nColumns: " ++
    String.intercalate ", "
      (t.columns.map (fun c => c.name ++ " (" ++ c.data_type ++ ")")) ++
    "\n\nIMPORTANT: Always use the full table name with schema prefix in SQL queries."

/-- `_generate_simple_sql_template` (lines 590-614). -/
def generateSimpleSqlTemplate (query : String) (t : TableInfo) :
    Option String :=
  let ql := pyStrip (pyLower query)
  let tableName := if t.schema ≠ "" then t.schema ++ "." ++ t.name else t.name
  if pyStartsWith ql "count " || pyStartsWith ql "how many " then
    some ("SELECT COUNT(*) AS count FROM " ++ tableName)
  else if pyStartsWith ql "show " || pyStartsWith ql "list " ||
          pyStartsWith ql "get " || pyStartsWith ql "display " then
    some ("SELECT * FROM " ++ tableName)
  else if pyStartsWith ql "total " || pyStartsWith ql "sum " then
    match t.columns.find? (fun c =>
        ["total", "amount", "price", "cost", "value"].any
          (fun kw => strContains (pyLower c.name) kw)) with
    | some col => some ("SELECT SUM(" ++ col.name ++ ") AS total FROM " ++ tableName)
    | none => none
  else none

/-- `_handle_simple_query` (lines 469-547).  Execution failure, template
failure and an empty/`-- Error` generation all fall back to
`_fallback_to_full_processing` = `_process_with_full_orchestration`. -/
def handleSimpleQuery (env : Env) (query : String) : Dict × Calls :=
  let tables := env.getSchema
  let likelyTable :=
    match findLikelyTable tables (pyLower query) with
    | some t => some t
    | none => tables.head?
  match likelyTable with
  | none => processWithFullOrchestration env query
  | some t =>
      let schemaContext := mkFastPathSchemaContext t
      let (sql, calls0) :=
        match generateSimpleSqlTemplate query t with
        | some s => (s, (⟨0, 0⟩ : Calls))
        | none => (env.genSQL query schemaContext, (⟨1, 0⟩ : Calls))
      if sql ≠ "" && !(pyStartsWith sql "-- Error") then
        match env.execQuery sql with
        | .ok results =>
            ([ ("success", .b true), ("sql", .s sql),
               ("results", .arr results),
               ("schema_used", .s schemaContext),
               ("log", .s ("Fast path successful. " ++
                 toString results.length ++ " rows returned.")),
               ("approach", .s "fast_path") ],
             ⟨calls0.gen, calls0.exec + 1⟩)
        | .error _ =>
            let (d, c) := processWithFullOrchestration env query
            (d, ⟨calls0.gen + c.gen, calls0.exec + 1 + c.exec⟩)
      else
        let (d, c) := processWithFullOrchestration env query
        (d, Calls.add calls0 c)

/-! ### Airplane mode handler and generic fallback (lines 126-178, 569-588) -/

/-- `_handle_airplane_mode` (lines 126-178). -/
def handleAirplaneMode (env : Env) (query : String) : Dict × Calls :=
  let ql := pyStrip (pyLower query)
  let sql :=
    if strContains ql "count" && strContains ql "customer" then
      "SELECT COUNT(*) AS customer_count FROM SalesLT.Customer"
    else if strContains ql "count" && strContains ql "product" then
      "SELECT COUNT(*) AS product_count FROM SalesLT.Product"
    else if strContains ql "count" &&
            (strContains ql "order" || strContains ql "sale") then
      "SELECT COUNT(*) AS order_count FROM SalesLT.SalesOrderHeader"
    else if strContains ql "show" && strContains ql "customer" then
      "SELECT TOP 10 CustomerID, FirstName, LastName FROM SalesLT.Customer"
    else if strContains ql "show" && strContains ql "product" then
      "SELECT TOP 10 ProductID, Name, ListPrice FROM SalesLT.Product"
    else if strContains ql "show" &&
            (strContains ql "order" || strContains ql "sale") then
      "SELECT TOP 10 SalesOrderID, OrderDate, TotalDue FROM SalesLT.SalesOrderHeader ORDER BY OrderDate DESC"
    else
      "SELECT COUNT(*) AS total_count FROM SalesLT.Customer"
  match env.execQuery sql with
  | .ok results =>
      ([ ("success", .b true), ("sql", .s sql), ("results", .arr results),
         ("schema_used", .s "hardcoded"),
         ("log", .s ("AIRPLANE MODE: Instant response with " ++
           toString results.length ++ " rows.")),
         ("approach", .s "airplane_mode"),
         ("execution_time", .s "< 0.1s") ], ⟨0, 1⟩)
  | .error e =>
      ([ ("success", .b false), ("sql", .s sql), ("results", .arr []),
         ("schema_used", .s "hardcoded"),
         ("log", .s ("AIRPLANE MODE: Database error - " ++ e)),
         ("approach", .s "airplane_mode_failed"),
         ("error", .s e) ], ⟨0, 1⟩)

/-- `_handle_generic_fallback` (lines 569-588). -/
def genericFallbackDict : Dict :=
  [ ("success", .b false), ("sql", .s "-- No SQL generated"),
    ("results", .arr []), ("schema_used", .s ""),
    ("log", .s ("Could not process this query. Please try rephrasing with " ++
      "simpler terms like \x27count customers\x27 or \x27show products\x27.")),
    ("approach", .s "generic_fallback"),
    ("suggestions", .arr [.s "count customers", .s "show products",
      .s "total sales", .s "list orders"]) ]

/-! ### `process_query_mode` (lines 81-124) -/

/-- `_store_in_cache` (lines 562-567): only successful results are stored. -/
def storeInCache (qrc : QRC) (now : Nat) (query : String) (result : Dict) :
    QRC :=
  if result.isSuccess then qrc.cacheResult now query result else qrc

structure AgentResult where
  result : Dict
  qrc : QRC
  calls : Calls

/-- STEP 3 and STEP 4 of `process_query_mode` (lines 107-124): full
orchestration, then airplane mode or the generic fallback.  `calls0`
carries the collaborator calls already made by the fast path. -/
def processStage34 (env : Env) (qrc : QRC) (now : Nat) (query : String)
    (calls0 : Calls) : AgentResult :=
  let (r, c) := processWithFullOrchestration env query
  let calls := Calls.add calls0 c
  if r.isSuccess then ⟨r, storeInCache qrc now query r, calls⟩
  else
    let (useAirplane, _reasoning, _metadata) := shouldUseAirplaneMode query
    if useAirplane then
      let (d, c2) := handleAirplaneMode env query
      ⟨d, qrc, Calls.add calls c2⟩
    else ⟨genericFallbackDict, qrc, calls⟩

/-- STEPs 2-4 of `process_query_mode`: the body after a cache miss. -/
def processUncached (env : Env) (qrc : QRC) (now : Nat) (query : String) :
    AgentResult :=
  if isSimpleQuery query then
    let (r, c) := handleSimpleQuery env query
    if r.isSuccess then ⟨r, storeInCache qrc now query r, c⟩
    else processStage34 env qrc now query c
  else processStage34 env qrc now query ⟨0, 0⟩

/-- `process_query_mode`: cache → fast path → full orchestration →
airplane mode / generic fallback. -/
def processQueryMode (env : Env) (qrc : QRC) (now : Nat) (query : String) :
    AgentResult :=
  let (hit, qrc) := qrc.getCachedResult now query
  match hit with
  | some r => ⟨r, qrc, ⟨0, 0⟩⟩
  | none => processUncached env qrc now query

/-! # Theorems -/

/-! ## C4: the circuit breaker state machine -/

/-- Invariant of `CircuitBreaker`: whenever the circuit is OPEN, the
threshold has been reached and a failure time is recorded.  It holds at
construction and is preserved by every call. -/
def CBInv (cb : CircuitBreaker) : Prop :=
  cb.state = .open_ →
    cb.failure_count ≥ cb.failure_threshold ∧ cb.last_failure_time ≠ none

theorem cbInv_init (threshold timeout : Nat) :
    CBInv (CircuitBreaker.init threshold timeout) := by
  intro h
  simp [CircuitBreaker.init] at h

theorem cbInv_step (cb : CircuitBreaker) (now : Nat) {α : Type}
    (outcome : Except String α) (hne : cb.state ≠ .open_) :
    CBInv (cb.step now outcome).breaker := by
  cases outcome with
  | ok v => intro h; simp [CircuitBreaker.step, CircuitBreaker.onSuccess] at h
  | error e =>
      intro h
      simp only [CircuitBreaker.step, CircuitBreaker.onFailure] at h ⊢
      split at h <;> simp_all

theorem cbInv_preserved (cb : CircuitBreaker) (now : Nat) {α : Type}
    (outcome : Except String α) (hinv : CBInv cb) :
    CBInv (cb.call now outcome).breaker := by
  unfold CircuitBreaker.call
  cases hst : cb.state <;> simp only [hst]
  · exact cbInv_step cb now outcome (by simp [hst])
  · split
    · exact cbInv_step _ now outcome (by simp)
    · simpa [CBInv, hst] using hinv
  · exact cbInv_step cb now outcome (by simp [hst])

/-- C4: The circuit breaker obeys its state machine (CLOSED failures count
up and open the circuit at the threshold, stamping the failure time; while
OPEN before the recovery timeout every call fails fast with the
circuit-open error and the wrapped operation is not invoked; the first call
after the timeout is admitted as a probe, whose success closes the circuit
with a zero failure count and whose failure re-opens it and re-stamps the
failure time; every success resets the failure count to zero). -/
theorem circuit_breaker_state_machine (cb : CircuitBreaker) (now : Nat)
    {α : Type} (outcome : Except String α) (hinv : CBInv cb) :
    (cb.state = .closed → ∀ e, outcome = .error e →
      (cb.call now outcome).breaker.failure_count = cb.failure_count + 1 ∧
      (cb.call now outcome).breaker.last_failure_time = some now ∧
      (cb.failure_count + 1 ≥ cb.failure_threshold →
        (cb.call now outcome).breaker.state = .open_) ∧
      (cb.failure_count + 1 < cb.failure_threshold →
        (cb.call now outcome).breaker.state = .closed)) ∧
    (cb.state = .open_ → cb.shouldAttemptReset now = false →
      (cb.call now outcome).result = .error "Circuit breaker is OPEN" ∧
      (cb.call now outcome).invoked = false ∧
      (cb.call now outcome).breaker = cb) ∧
    (cb.state = .open_ → cb.shouldAttemptReset now = true →
      (cb.call now outcome).invoked = true ∧
      (∀ v, outcome = .ok v →
        (cb.call now outcome).breaker.state = .closed ∧
        (cb.call now outcome).breaker.failure_count = 0) ∧
      (∀ e, outcome = .error e →
        (cb.call now outcome).breaker.state = .open_ ∧
        (cb.call now outcome).breaker.last_failure_time = some now)) ∧
    (∀ v, outcome = .ok v → (cb.call now outcome).invoked = true →
      (cb.call now outcome).breaker.failure_count = 0 ∧
      (cb.call now outcome).breaker.state = .closed) := by
  unfold CircuitBreaker.call
  refine ⟨?_, ?_, ?_, ?_⟩
  · intro hst e houtcome
    subst houtcome
    simp only [hst]
    simp only [CircuitBreaker.step, CircuitBreaker.onFailure]
    refine ⟨?_, ?_, ?_, ?_⟩
    · split <;> rfl
    · split <;> rfl
    · intro h; rw [if_pos (by omega)]
    · intro h; rw [if_neg (by omega)]; simpa using hst
  · intro hst hreset
    simp [hst, hreset]
  · intro hst hreset
    have h := hinv hst
    simp only [hst, hreset, if_true]
    refine ⟨?_, ?_, ?_⟩
    · cases outcome <;> simp [CircuitBreaker.step]
    · intro v houtcome
      subst houtcome
      simp [CircuitBreaker.step, CircuitBreaker.onSuccess]
    · intro e houtcome
      subst houtcome
      simp only [CircuitBreaker.step, CircuitBreaker.onFailure]
      rw [if_pos (by omega)]
      simp
  · intro v houtcome hinvoked
    subst houtcome
    cases hst : cb.state <;> simp only [hst] at hinvoked ⊢
    · simp [CircuitBreaker.step, CircuitBreaker.onSuccess]
    · split at hinvoked
      · rename_i hr
        rw [if_pos hr]
        simp [CircuitBreaker.step, CircuitBreaker.onSuccess]
      · simp at hinvoked
    · simp [CircuitBreaker.step, CircuitBreaker.onSuccess]

/-- Witness for C4 at a concrete breaker, time and outcome. -/
theorem circuit_breaker_state_machine_witness :
    CBInv { failure_threshold := 3, recovery_timeout := 30,
            failure_count := 2, last_failure_time := none,
            state := .closed } ∧
    ((⟨3, 30, 2, none, .closed⟩ : CircuitBreaker).call 100
        (Except.error (α := Nat) "db down")).breaker.state = .open_ := by
  have hinv : CBInv (⟨3, 30, 2, none, .closed⟩ : CircuitBreaker) := by
    intro h; simp at h
  refine ⟨hinv, ?_⟩
  have h := circuit_breaker_state_machine
    (⟨3, 30, 2, none, .closed⟩ : CircuitBreaker) 100
    (Except.error (α := Nat) "db down") hinv
  exact (h.1 rfl "db down" rfl).2.2.1 (by decide)

/-! ## C9: cache TTL read semantics -/

theorem lookup_eq_none_of_not_mem {β : Type} (l : List (String × β))
    (k : String) (h : k ∉ l.map Prod.fst) : l.lookup k = none := by
  induction l with
  | nil => rfl
  | cons a t ih =>
      simp only [List.map_cons, List.mem_cons] at h
      push_neg at h
      have hbeq : (k == a.1) = false := by
        simp only [beq_eq_false_iff_ne, ne_eq]
        exact h.1
      simp only [List.lookup, hbeq]
      exact ih h.2

theorem lookup_eraseP_self_none {β : Type} (l : List (String × β))
    (k : String) (h : (l.map Prod.fst).Nodup) :
    (l.eraseP (fun p => p.1 == k)).lookup k = none := by
  induction l with
  | nil => rfl
  | cons a t ih =>
      simp only [List.map_cons, List.nodup_cons] at h
      by_cases hk : a.1 = k
      · rw [List.eraseP_cons_of_pos (by simp [hk])]
        exact lookup_eq_none_of_not_mem t k (hk ▸ h.1)
      · rw [List.eraseP_cons_of_neg (by simp [hk])]
        have hbeq : (k == a.1) = false := by
          simp only [beq_eq_false_iff_ne, ne_eq]
          exact fun hh => hk hh.symm
        simp only [List.lookup, hbeq]
        exact ih h.2

/-- C9 (amended): `QueryResultCache.get_cached_result` returns the stored
value exactly when `now - createdAt < ttl`, and a `get` that finds the
entry expired removes it; `EnterpriseSchemaCache.get` returns the stored
value exactly when `now - createdAt ≤ ttl` (the boundary instant
`now - createdAt = ttl` still hits, because its expiry test is strict
`>`), and removes the entry when `now - createdAt > ttl`; an absent key
reads as `none` in both. -/
theorem cache_ttl_semantics :
    (∀ (c : QRC) (now : Nat) (q : String) (r : Dict) (ts : Nat),
      (c.query_cache.map Prod.fst).Nodup →
      c.query_cache.lookup (cacheKey q) = some (r, ts) →
      ((now - ts < c.cache_ttl → (c.getCachedResult now q).1 = some r) ∧
       (now - ts ≥ c.cache_ttl →
         (c.getCachedResult now q).1 = none ∧
         (c.getCachedResult now q).2.query_cache.lookup (cacheKey q) = none))) ∧
    (∀ (c : QRC) (now : Nat) (q : String),
      c.query_cache.lookup (cacheKey q) = none →
      (c.getCachedResult now q).1 = none) ∧
    (∀ (c : ESCache) (now : Nat) (k : String) (e : ESCacheEntry),
      (c.cache.map Prod.fst).Nodup →
      c.cache.lookup k = some e →
      ((now - e.timestamp ≤ e.ttl → (c.get now k).1 = some e.data) ∧
       (now - e.timestamp > e.ttl →
         (c.get now k).1 = none ∧
         (c.get now k).2.cache.lookup k = none))) ∧
    (∀ (c : ESCache) (now : Nat) (k : String),
      c.cache.lookup k = none → (c.get now k).1 = none) := by
  refine ⟨?_, ?_, ?_, ?_⟩
  · intro c now q r ts hnodup hlookup
    constructor
    · intro hvalid
      simp [QRC.getCachedResult, hlookup, QRC.isCacheValid, hvalid]
    · intro hexpired
      have hval : c.isCacheValid now ts = false := by
        simp [QRC.isCacheValid]; omega
      refine ⟨?_, ?_⟩
      · simp [QRC.getCachedResult, hlookup, hval]
      · simp only [QRC.getCachedResult, hlookup, hval]
        simp only [Bool.false_eq_true, if_false]
        exact lookup_eraseP_self_none _ _ hnodup
  · intro c now q hlookup
    simp [QRC.getCachedResult, hlookup]
  · intro c now k e hnodup hlookup
    constructor
    · intro hfresh
      have : ¬ (now - e.timestamp > e.ttl) := by omega
      simp [ESCache.get, hlookup, this]
    · intro hexpired
      refine ⟨?_, ?_⟩
      · simp [ESCache.get, hlookup, hexpired]
      · simp only [ESCache.get, hlookup]
        rw [if_pos (by simpa using hexpired)]
        exact lookup_eraseP_self_none _ _ hnodup
  · intro c now k hlookup
    simp [ESCache.get, hlookup]

/-- Witness for C9 (amended) at concrete caches: a fresh hit and an
expired miss-with-removal on both cache classes. -/
theorem cache_ttl_semantics_witness :
    (((QRC.init 3600).cacheResult 0 "q" []).getCachedResult 10 "q").1 = some [] ∧
    (((QRC.init 3600).cacheResult 0 "q" []).getCachedResult 3600 "q").1 = none ∧
    ((((ESCache.init 1800 1000).set 0 "k" [] none).get 1800 "k").1 = some []) ∧
    ((((ESCache.init 1800 1000).set 0 "k" [] none).get 1801 "k").1 = none) := by
  have h := cache_ttl_semantics
  refine ⟨?_, ?_, ?_, ?_⟩
  · exact (h.1 ((QRC.init 3600).cacheResult 0 "q" []) 10 "q" [] 0
      (by decide) (by rfl)).1 (by decide)
  · exact ((h.1 ((QRC.init 3600).cacheResult 0 "q" []) 3600 "q" [] 0
      (by decide) (by rfl)).2 (by decide)).1
  · exact (h.2.2.1 ((ESCache.init 1800 1000).set 0 "k" [] none) 1800 "k"
      ⟨[], 0, 1800, 1, 0⟩ (by decide) (by decide)).1 (by decide)
  · exact ((h.2.2.1 ((ESCache.init 1800 1000).set 0 "k" [] none) 1801 "k"
      ⟨[], 0, 1800, 1, 0⟩ (by decide) (by decide)).2 (by decide)).1

/-- C9 counterexample: at the boundary instant `now - createdAt = ttl` the
`EnterpriseSchemaCache` still returns the stored value, while the claim
demands `None` whenever `now - createdAt >= ttl`. -/
theorem cache_ttl_boundary_cex :
    (10 : Nat) - (0 : Nat) ≥ 10 ∧
    ((⟨1800, 1000, [("database_schema",
        ⟨[⟨"SalesLT", "Customer", []⟩], 0, 10, 1, 0⟩)]⟩ : ESCache).get
      10 "database_schema").1 = some [⟨"SalesLT", "Customer", []⟩] := by
  constructor
  · decide
  · decide

/-! ## C2: schema accessor behaviour when the protected fetch fails -/

theorem esGet_none_lookup (c : ESCache) (now : Nat) (k : String)
    (hnodup : (c.cache.map Prod.fst).Nodup) (h : (c.get now k).1 = none) :
    (c.get now k).2.cache.lookup k = none := by
  unfold ESCache.get at h ⊢
  cases hl : c.cache.lookup k with
  | none => simp only [hl]
  | some e =>
      simp only [hl] at h ⊢
      by_cases hexp : now - e.timestamp > e.ttl
      · simp only [if_pos hexp]
        exact lookup_eraseP_self_none _ _ hnodup
      · simp only [if_neg hexp] at h
        simp at h

/-- C2 (amended): when the circuit-breaker-protected schema load fails
(including a `CircuitOpenError` short-circuit), `_get_schema_cached`
returns whatever an unexpired cache entry holds, and otherwise the *empty*
table list: the stale-return branch is unreachable in sequential execution
because `EnterpriseSchemaCache.get` has already deleted an expired entry,
and no hardcoded fallback schema exists, so callers can receive an empty
metadata set. -/
theorem schema_fetch_failure_result (st : AnalystState) (now : Nat)
    (e : String) (hload : st.loadResult = .error e)
    (hnodup : (st.schemaCache.cache.map Prod.fst).Nodup) :
    ((st.schemaCache.get now "database_schema").1 = none →
      (getSchemaCached st now).1 = []) ∧
    (∀ data, (st.schemaCache.get now "database_schema").1 = some data →
      (getSchemaCached st now).1 = data) := by
  constructor
  · intro hnone
    have hlk : (st.schemaCache.get now "database_schema").2.cache.lookup
        "database_schema" = none :=
      esGet_none_lookup st.schemaCache now "database_schema" hnodup hnone
    unfold getSchemaCached
    simp only [hnone, hlk, hload]
  · intro data hsome
    unfold getSchemaCached
    simp only [hsome]

/-- Witness for C2 (amended): an empty schema cache and a failing load
yield the empty table list. -/
theorem schema_fetch_failure_result_witness :
    ((⟨ESCache.init 1800 1000, .error "SourceUnavailable"⟩ :
        AnalystState).schemaCache.get 50 "database_schema").1 = none ∧
    (getSchemaCached
      (⟨ESCache.init 1800 1000, .error "SourceUnavailable"⟩ : AnalystState)
      50).1 = [] := by
  refine ⟨by decide, ?_⟩
  exact (schema_fetch_failure_result
    (⟨ESCache.init 1800 1000, .error "SourceUnavailable"⟩ : AnalystState)
    50 "SourceUnavailable" rfl (by decide)).1 (by decide)

/-- C2 counterexample: a previously cached (now expired) schema value
exists and the load fails, yet `_get_schema_cached` returns neither that
stale value nor a hardcoded minimal schema — it returns the empty list, so
the caller does receive an empty metadata set. -/
theorem schema_fetch_failure_cex :
    ((⟨⟨1800, 1000, [("database_schema",
          ⟨[⟨"SalesLT", "Customer", []⟩], 0, 10, 1, 0⟩)]⟩,
        .error "SourceUnavailable"⟩ : AnalystState).schemaCache.cache.lookup
      "database_schema" =
      some ⟨[⟨"SalesLT", "Customer", []⟩], 0, 10, 1, 0⟩) ∧
    (getSchemaCached
      (⟨⟨1800, 1000, [("database_schema",
          ⟨[⟨"SalesLT", "Customer", []⟩], 0, 10, 1, 0⟩)]⟩,
        .error "SourceUnavailable"⟩ : AnalystState) 100).1 = [] := by
  constructor
  · decide
  · decide

/-! ## C3: totality and determinism of the airplane-mode SQL generator -/

theorem data_append (a b : String) : (a ++ b).data = a.data ++ b.data := rfl

theorem str_ne_empty_of_data (s : String) (h : s.data ≠ []) : s ≠ "" :=
  fun hc => h (congrArg String.data hc)

/-- C3 (amended): for every input string, table list and measured elapsed
time, `generate_sql_fast` returns a non-empty string.  The function is a
pure function of these three arguments (it makes no external call), so its
output is deterministic up to the elapsed-time annotation embedded in the
comment header. -/
theorem generate_sql_fast_nonempty (query : String) (tables : List DTable)
    (elapsed : String) : generateSqlFast query tables elapsed ≠ "" := by
  apply str_ne_empty_of_data
  unfold generateSqlFast
  split
  · simp only [data_append]
    repeat' apply List.append_ne_nil_of_left_ne_nil
    decide
  · split
    · simp only [data_append]
      repeat' apply List.append_ne_nil_of_left_ne_nil
      decide
    · decide

/-- C3 counterexample to determinism across runs: the same request and
table list produce different output texts for two different wall-clock
readings, because the elapsed time is interpolated into the result. -/
theorem generate_sql_fast_two_runs_cex :
    generateSqlFast "show customers" [] "0.000" ≠
      generateSqlFast "show customers" [] "0.001" := by
  decide

/-! ## C10: shallow-copy semantics of the result cache

`cache_result` stores `result.copy()` and `get_cached_result` returns
`result.copy()`.  To make the aliasing explicit, caller-held dicts live in
a heap of numbered objects; the cache itself stores plain dict *content*
(the copy).  `heapSetKey` is a top-level mutation `obj[k] = v` of one
caller-held dict. -/

structure HeapSt where
  objs : List (Nat × Dict)
  next : Nat

def heapGet (h : HeapSt) (r : Nat) : Option Dict :=
  h.objs.lookup r

def heapAlloc (h : HeapSt) (d : Dict) : Nat × HeapSt :=
  (h.next, ⟨(h.next, d) :: h.objs, h.next + 1⟩)

def heapSetKey (h : HeapSt) (r : Nat) (k : String) (v : JVal) : HeapSt :=
  { h with
    objs := h.objs.map (fun p => if p.1 = r then (p.1, p.2.insert k v) else p) }

/-- `cache_result` on a caller-held dict: what is stored is the content of
the object at write time (`result.copy()`). -/
def cacheResultRef (c : QRC) (h : HeapSt) (now : Nat) (q : String)
    (r : Nat) : QRC :=
  c.cacheResult now q ((heapGet h r).getD [])

/-- `get_cached_result` on the heap: a hit allocates a fresh object holding
the stored content (`result.copy()`) and returns its reference. -/
def getCachedResultRef (c : QRC) (h : HeapSt) (now : Nat) (q : String) :
    Option Nat × HeapSt × QRC :=
  match c.getCachedResult now q with
  | (some d, c2) =>
      let (r, h2) := heapAlloc h d
      (some r, h2, c2)
  | (none, c2) => (none, h, c2)

theorem qrcGet_hit (c : QRC) (now : Nat) (q : String) (r : Dict) (ts : Nat)
    (hlk : c.query_cache.lookup (cacheKey q) = some (r, ts))
    (hvalid : now - ts < c.cache_ttl) :
    c.getCachedResult now q =
      (some r, { c with cache_hits := c.cache_hits + 1 }) := by
  unfold QRC.getCachedResult
  simp [hlk, QRC.isCacheValid, hvalid]

/-- C10: the result cache stores a copy on write and returns a copy on
read.  (1) The stored value is the dict content at write time.  (2) For
*any* later heap — in particular one where the writer has since mutated a
top-level entry of the dict it passed in — a read within the TTL hands out
a fresh object holding the original content, and (3) after mutating a
top-level entry of that returned object, a further read still yields the
original content. -/
theorem resultCache_shallow_copy (c : QRC) (h : HeapSt) (now now2 : Nat)
    (q : String) (r : Nat) (d : Dict) (k : String) (v : JVal)
    (hd : heapGet h r = some d) (hvalid : now2 - now < c.cache_ttl) :
    ((cacheResultRef c h now q r).query_cache.lookup (cacheKey q) =
      some (d, now)) ∧
    (∀ h2 : HeapSt, ∃ r2 h3 c3,
      getCachedResultRef (cacheResultRef c h now q r) h2 now2 q =
        (some r2, h3, c3) ∧
      heapGet h3 r2 = some d ∧
      heapGet (heapSetKey h3 r2 k v) r2 = some (d.insert k v) ∧
      ∃ r4 h5 c5,
        getCachedResultRef c3 (heapSetKey h3 r2 k v) now2 q =
          (some r4, h5, c5) ∧
        heapGet h5 r4 = some d) := by
  have hstore : (cacheResultRef c h now q r).query_cache.lookup (cacheKey q) =
      some (d, now) := by
    unfold cacheResultRef QRC.cacheResult
    simp [hd, List.lookup]
  refine ⟨hstore, ?_⟩
  intro h2
  have hget := qrcGet_hit (cacheResultRef c h now q r) now2 q d now hstore
    (by exact hvalid)
  refine ⟨h2.next, ⟨(h2.next, d) :: h2.objs, h2.next + 1⟩,
    { cacheResultRef c h now q r with
      cache_hits := (cacheResultRef c h now q r).cache_hits + 1 },
    ?_, ?_, ?_, ?_⟩
  · unfold getCachedResultRef
    rw [hget]
    simp [heapAlloc]
  · simp [heapGet, List.lookup]
  · have hmut : heapSetKey (⟨(h2.next, d) :: h2.objs, h2.next + 1⟩ : HeapSt)
        h2.next k v =
        ⟨(h2.next, Dict.insert d k v) ::
          (h2.objs.map fun p =>
            if p.1 = h2.next then (p.1, Dict.insert p.2 k v) else p),
          h2.next + 1⟩ := by
      simp [heapSetKey]
    rw [hmut]
    simp [heapGet, List.lookup]
  · have hget2 := qrcGet_hit
      ({ cacheResultRef c h now q r with
        cache_hits := (cacheResultRef c h now q r).cache_hits + 1 }) now2 q d now
      (by exact hstore) (by exact hvalid)
    refine ⟨(heapSetKey ⟨(h2.next, d) :: h2.objs, h2.next + 1⟩ h2.next k v).next,
      ⟨((heapSetKey ⟨(h2.next, d) :: h2.objs, h2.next + 1⟩ h2.next k v).next, d) ::
          (heapSetKey ⟨(h2.next, d) :: h2.objs, h2.next + 1⟩ h2.next k v).objs,
        (heapSetKey ⟨(h2.next, d) :: h2.objs, h2.next + 1⟩ h2.next k v).next + 1⟩,
      { cacheResultRef c h now q r with
        cache_hits := (cacheResultRef c h now q r).cache_hits + 1 + 1 }, ?_, ?_⟩
    · unfold getCachedResultRef
      rw [hget2]
      simp [heapAlloc]
    · simp [heapGet, List.lookup]

/-! ## C8: the iterative-refinement loop -/

/-- Behavioural specification of one `iterLoop` call, relative to the
accumulators it starts from.  `o.contexts` are the generation contexts in
call order; the `i`-th one renders exactly the first
`attempts.length + i` accumulated failure pairs. -/
def IterSpec (env : Env) (query schemaContext : String) (llmModel : JVal)
    (maxIter remaining iterDone : Nat) (attempts errors : List String) :
    Prop :=
  let o := iterLoop env query schemaContext llmModel maxIter remaining
    iterDone attempts errors
  o.attempts.take attempts.length = attempts ∧
  o.errors.take errors.length = errors ∧
  o.errors.length = o.attempts.length ∧
  (∀ i, (h : i < o.contexts.length) → o.contexts.get ⟨i, h⟩ =
    mkIterContext schemaContext (o.attempts.take (attempts.length + i))
      (o.errors.take (errors.length + i))) ∧
  (o.result.isSuccess = true →
    o.result.findStr "approach" = some "iterative_refinement" ∧
    o.result.find "iterations" = some (.n (iterDone + o.contexts.length)) ∧
    1 ≤ o.contexts.length ∧ o.contexts.length ≤ remaining ∧
    o.attempts.length = attempts.length + (o.contexts.length - 1)) ∧
  (o.result.isSuccess = false →
    o.result.findStr "approach" = some "iterative_refinement" ∧
    o.result.find "iterations" = some (.n maxIter) ∧
    o.result.find "sql_attempts" = some (.arr (o.attempts.map JVal.s)) ∧
    o.result.find "errors" = some (.arr (o.errors.map JVal.s)) ∧
    o.attempts.length = attempts.length + remaining ∧
    o.contexts.length = remaining) ∧
  (∀ g, (iterLoop { env with analyzeFailure := g } query schemaContext
      llmModel maxIter remaining iterDone attempts errors).attempts =
        o.attempts ∧
    (iterLoop { env with analyzeFailure := g } query schemaContext llmModel
      maxIter remaining iterDone attempts errors).errors = o.errors ∧
    (iterLoop { env with analyzeFailure := g } query schemaContext llmModel
      maxIter remaining iterDone attempts errors).contexts = o.contexts ∧
    (iterLoop { env with analyzeFailure := g } query schemaContext llmModel
      maxIter remaining iterDone attempts errors).result.isSuccess =
      o.result.isSuccess)

theorem iterLoop_spec (env : Env) (query schemaContext : String)
    (llmModel : JVal) (maxIter : Nat) :
    ∀ (remaining iterDone : Nat) (attempts errors : List String),
    attempts.length = errors.length →
    IterSpec env query schemaContext llmModel maxIter remaining iterDone
      attempts errors := by
  intro remaining
  induction remaining with
  | zero =>
      intro iterDone attempts errors hlen
      unfold IterSpec iterLoop
      refine ⟨List.take_length _, List.take_length _, hlen.symm, ?_, ?_, ?_, ?_⟩
      · intro i h
        simp at h
      · intro hsucc
        simp [Dict.isSuccess, Dict.find, List.lookup] at hsucc
      · intro _
        refine ⟨rfl, rfl, rfl, rfl, by simp, rfl⟩
      · intro g
        exact ⟨rfl, rfl, rfl, rfl⟩
  | succ remaining ih =>
      intro iterDone attempts errors hlen
      unfold IterSpec
      simp only [iterLoop]
      cases hexec : env.execQuery
        (env.genSQL query (mkIterContext schemaContext attempts errors)) with
      | ok results =>
          simp only [hexec]
          refine ⟨List.take_length _, List.take_length _, hlen.symm, ?_, ?_, ?_, ?_⟩
          · intro i h
            simp only [List.length_cons, List.length_nil] at h
            interval_cases i
            simp [List.take_length]
          · intro _
            refine ⟨rfl, ?_, by simp, by simp, by simp⟩
            simp [Dict.find, List.lookup]
          · intro hfail
            simp [Dict.isSuccess, Dict.find, List.lookup] at hfail
          · intro g
            exact ⟨trivial, trivial, trivial, trivial⟩
      | error e =>
          have hlen2 : (attempts ++ [env.genSQL query
              (mkIterContext schemaContext attempts errors)]).length =
              (errors ++ [e]).length := by
            simp [hlen]
          have hih := ih (iterDone + 1)
            (attempts ++ [env.genSQL query
              (mkIterContext schemaContext attempts errors)])
            (errors ++ [e]) hlen2
          unfold IterSpec at hih
          obtain ⟨ihta, ihte, ihlen, ihctx, ihsucc, ihfail, ihg⟩ := hih
          simp only [hexec]
          set sql := env.genSQL query (mkIterContext schemaContext attempts errors) with hsql
          set o2 := iterLoop env query schemaContext llmModel maxIter remaining
            (iterDone + 1) (attempts ++ [sql]) (errors ++ [e]) with ho2
          have hta : o2.attempts.take attempts.length = attempts := by
            have h1 : o2.attempts.take (attempts.length + 1) = attempts ++ [sql] := by
              simpa using ihta
            have h2 : (o2.attempts.take (attempts.length + 1)).take attempts.length
                = o2.attempts.take attempts.length := by
              rw [List.take_take]
              congr 1
              omega
            rw [← h2, h1]
            simp
          have hte : o2.errors.take errors.length = errors := by
            have h1 : o2.errors.take (errors.length + 1) = errors ++ [e] := by
              simpa using ihte
            have h2 : (o2.errors.take (errors.length + 1)).take errors.length
                = o2.errors.take errors.length := by
              rw [List.take_take]
              congr 1
              omega
            rw [← h2, h1]
            simp
          refine ⟨hta, hte, ihlen, ?_, ?_, ?_, ?_⟩
          · intro i h
            match i with
            | 0 =>
                simp only [List.get, Nat.add_zero]
                rw [hta, hte]
            | Nat.succ j =>
                have hj : j < o2.contexts.length := by
                  simpa using h
                have hstep : (mkIterContext schemaContext attempts errors ::
                    o2.contexts).get ⟨j + 1, h⟩ = o2.contexts.get ⟨j, hj⟩ := rfl
                rw [hstep, ihctx j hj,
                  show (attempts ++ [sql]).length + j = attempts.length + (j + 1) by
                    simp only [List.length_append, List.length_cons,
                      List.length_nil]
                    omega,
                  show (errors ++ [e]).length + j = errors.length + (j + 1) by
                    simp only [List.length_append, List.length_cons,
                      List.length_nil]
                    omega]
          · intro hsucc
            obtain ⟨ha, hi, h1, h2, h3⟩ := ihsucc hsucc
            refine ⟨ha, ?_, by simp, ?_, ?_⟩
            · rw [show iterDone + (mkIterContext schemaContext attempts errors ::
                  o2.contexts).length = iterDone + 1 + o2.contexts.length by
                    simp only [List.length_cons]
                    omega]
              exact hi
            · simp only [List.length_cons]
              omega
            · simp only [List.length_cons, List.length_append,
                List.length_nil] at h3 ⊢
              omega
          · intro hfail
            obtain ⟨ha, hi, hsa, he2, hl, hc⟩ := ihfail hfail
            refine ⟨ha, hi, hsa, he2, ?_, by simp [hc]⟩
            simp only [List.length_append, List.length_cons, List.length_nil] at hl ⊢
            omega
          · intro g
            obtain ⟨ga, ge, gc, gs⟩ := ihg g
            exact ⟨ga, ge, by rw [gc], gs⟩


/-- C8: for every `maxIterations >= 1`, the refinement loop's `i`-th
generation call sees a context rendering exactly the `i` previously
accumulated (candidate SQL, error) pairs; on the first successful
execution it returns immediately with `success=true`, the
`iterative_refinement` stage label and the iteration count; if every
iteration fails it returns `success=false` carrying the full attempted-SQL
and error lists, after a failure-diagnosis delegate call whose behaviour
can change neither those lists nor the overall failure. -/
theorem iterative_refinement_behaviour (env : Env)
    (query schemaContext : String) (llmModel : JVal) (maxIter : Nat)
    (hmax : 1 ≤ maxIter) :
    (∀ i, (h : i < (iterativeRefinement env query schemaContext llmModel
        maxIter).contexts.length) →
      (iterativeRefinement env query schemaContext llmModel
        maxIter).contexts.get ⟨i, h⟩ =
        mkIterContext schemaContext
          ((iterativeRefinement env query schemaContext llmModel
            maxIter).attempts.take i)
          ((iterativeRefinement env query schemaContext llmModel
            maxIter).errors.take i)) ∧
    ((iterativeRefinement env query schemaContext llmModel
        maxIter).result.isSuccess = true →
      (iterativeRefinement env query schemaContext llmModel
        maxIter).result.findStr "approach" = some "iterative_refinement" ∧
      (iterativeRefinement env query schemaContext llmModel
        maxIter).result.find "iterations" = some (.n
          (iterativeRefinement env query schemaContext llmModel
            maxIter).contexts.length) ∧
      1 ≤ (iterativeRefinement env query schemaContext llmModel
        maxIter).contexts.length ∧
      (iterativeRefinement env query schemaContext llmModel
        maxIter).contexts.length ≤ maxIter) ∧
    ((iterativeRefinement env query schemaContext llmModel
        maxIter).result.isSuccess = false →
      (iterativeRefinement env query schemaContext llmModel
        maxIter).result.findStr "approach" = some "iterative_refinement" ∧
      (iterativeRefinement env query schemaContext llmModel
        maxIter).result.find "iterations" = some (.n maxIter) ∧
      (iterativeRefinement env query schemaContext llmModel
        maxIter).result.find "sql_attempts" = some (.arr
          ((iterativeRefinement env query schemaContext llmModel
            maxIter).attempts.map JVal.s)) ∧
      (iterativeRefinement env query schemaContext llmModel
        maxIter).result.find "errors" = some (.arr
          ((iterativeRefinement env query schemaContext llmModel
            maxIter).errors.map JVal.s)) ∧
      (iterativeRefinement env query schemaContext llmModel
        maxIter).attempts.length = maxIter) ∧
    (∀ g, (iterativeRefinement { env with analyzeFailure := g } query
        schemaContext llmModel maxIter).attempts =
        (iterativeRefinement env query schemaContext llmModel
          maxIter).attempts ∧
      (iterativeRefinement { env with analyzeFailure := g } query
        schemaContext llmModel maxIter).errors =
        (iterativeRefinement env query schemaContext llmModel
          maxIter).errors ∧
      (iterativeRefinement { env with analyzeFailure := g } query
        schemaContext llmModel maxIter).result.isSuccess =
        (iterativeRefinement env query schemaContext llmModel
          maxIter).result.isSuccess) := by
  have h := iterLoop_spec env query schemaContext llmModel maxIter maxIter 0
    [] [] rfl
  unfold IterSpec at h
  obtain ⟨_, _, _, hctx, hsucc, hfail, hg⟩ := h
  unfold iterativeRefinement
  refine ⟨?_, ?_, ?_, ?_⟩
  · intro i hi
    simpa using hctx i hi
  · intro hs
    obtain ⟨ha, hi, h1, h2, _⟩ := hsucc hs
    exact ⟨ha, by simpa using hi, h1, h2⟩
  · intro hs
    obtain ⟨ha, hi, hsa, he, hl, _⟩ := hfail hs
    exact ⟨ha, hi, hsa, he, by simpa using hl⟩
  · intro g
    obtain ⟨ga, ge, _, gs⟩ := hg g
    exact ⟨ga, ge, gs⟩

/-- Witness for C8 at a concrete environment (generation returns a fixed
candidate, execution always fails, two iterations). -/
theorem iterative_refinement_behaviour_witness :
    (1 : Nat) ≤ 2 ∧
    ((iterativeRefinement
        ⟨[], fun _ _ => [], fun _ => "", fun _ _ _ => [], fun _ _ => "X",
          fun _ => .error "boom", fun _ _ _ => "", fun _ _ _ _ => []⟩
        "q" "ctx" (.s "m") 2).result.find "iterations" = some (.n 2)) := by
  refine ⟨by decide, ?_⟩
  have h := iterative_refinement_behaviour
    ⟨[], fun _ _ => [], fun _ => "", fun _ _ _ => [], fun _ _ => "X",
      fun _ => .error "boom", fun _ _ _ => "", fun _ _ _ _ => []⟩
    "q" "ctx" (.s "m") 2 (by decide)
  exact (h.2.2.1 (by rfl)).2.1

/-- Witness for C10 at a concrete cache, heap, dict and mutation. -/
theorem resultCache_shallow_copy_witness :
    heapGet ⟨[(0, [("a", JVal.s "x")])], 1⟩ 0 = some [("a", JVal.s "x")] ∧
    (1 : Nat) - 0 < (QRC.init 3600).cache_ttl ∧
    ∃ r2 h3 c3,
      getCachedResultRef
        (cacheResultRef (QRC.init 3600) ⟨[(0, [("a", JVal.s "x")])], 1⟩ 0 "q" 0)
        (heapSetKey ⟨[(0, [("a", JVal.s "x")])], 1⟩ 0 "a" (JVal.s "mutated"))
        1 "q" = (some r2, h3, c3) ∧
      heapGet h3 r2 = some [("a", JVal.s "x")] ∧
      heapGet (heapSetKey h3 r2 "a" (JVal.s "mutated")) r2 =
        some (Dict.insert [("a", JVal.s "x")] "a" (JVal.s "mutated")) ∧
      ∃ r4 h5 c5,
        getCachedResultRef c3 (heapSetKey h3 r2 "a" (JVal.s "mutated")) 1 "q" =
          (some r4, h5, c5) ∧
        heapGet h5 r4 = some [("a", JVal.s "x")] := by
  refine ⟨rfl, by decide, ?_⟩
  exact (resultCache_shallow_copy (QRC.init 3600)
    ⟨[(0, [("a", JVal.s "x")])], 1⟩ 0 1 "q" 0 [("a", JVal.s "x")]
    "a" (JVal.s "mutated") rfl (by decide)).2
    (heapSetKey ⟨[(0, [("a", JVal.s "x")])], 1⟩ 0 "a" (JVal.s "mutated"))

/-! ## C1: the pipeline always returns a structured result -/

/-- A structured result dict: a boolean `success` flag and a string `log`. -/
def Shaped (d : Dict) : Prop :=
  (∃ b, d.find "success" = some (JVal.b b)) ∧ ∃ s, d.findStr "log" = some s

/-- Every dict stored in the result cache is structured. -/
def CacheShaped (qrc : QRC) : Prop :=
  ∀ p ∈ qrc.query_cache, Shaped p.2.1

/-- Simulated failure of the execution collaborator on every call (the one
collaborator whose wrapper re-raises). -/
def AllFail (env : Env) : Prop :=
  ∀ sql, ∃ e, env.execQuery sql = Except.error e

theorem shaped_handleExecutionError (env : Env) (sql error ctx : String) :
    Shaped (handleExecutionError env sql error ctx).1 := by
  unfold handleExecutionError
  cases h : env.execQuery (env.correctSQL sql error ctx) <;>
    simp only [h] <;> exact ⟨⟨_, rfl⟩, ⟨_, rfl⟩⟩

theorem shaped_directGeneration (env : Env) (query ctx : String)
    (llmModel : JVal) : Shaped (directGeneration env query ctx llmModel).1 := by
  unfold directGeneration
  cases h : env.execQuery (env.genSQL query ctx) with
  | ok results => simp only [h]; exact ⟨⟨_, rfl⟩, ⟨_, rfl⟩⟩
  | error e =>
      simp only [h]
      exact shaped_handleExecutionError env (env.genSQL query ctx) e ctx

theorem shaped_iterLoop (env : Env) (query ctx : String) (llmModel : JVal)
    (maxIter : Nat) : ∀ (remaining iterDone : Nat)
    (attempts errors : List String),
    Shaped (iterLoop env query ctx llmModel maxIter remaining iterDone
      attempts errors).result := by
  intro remaining
  induction remaining with
  | zero =>
      intro iterDone attempts errors
      exact ⟨⟨_, rfl⟩, ⟨_, rfl⟩⟩
  | succ remaining ih =>
      intro iterDone attempts errors
      unfold iterLoop
      cases h : env.execQuery
        (env.genSQL query (mkIterContext ctx attempts errors)) with
      | ok results => simp only [h]; exact ⟨⟨_, rfl⟩, ⟨_, rfl⟩⟩
      | error e => simp only [h]; exact ih (iterDone + 1) _ _

theorem shaped_iterativeRefinement (env : Env) (query ctx : String)
    (llmModel : JVal) (maxIter : Nat) :
    Shaped (iterativeRefinement env query ctx llmModel maxIter).result :=
  shaped_iterLoop env query ctx llmModel maxIter maxIter 0 [] []

theorem shaped_executeIntelligentApproach (env : Env) (query : String)
    (approach : Dict) (ctx : String) (intent : Dict) :
    Shaped (executeIntelligentApproach env query approach ctx intent).1 := by
  unfold executeIntelligentApproach
  simp only []
  split
  · split <;>
      first
        | exact shaped_iterativeRefinement env query ctx _ _
        | exact ⟨⟨_, rfl⟩, ⟨_, rfl⟩⟩
  · split
    · exact shaped_iterativeRefinement env query ctx _ _
    · split
      · exact ⟨⟨_, rfl⟩, ⟨_, rfl⟩⟩
      · split
        · exact ⟨⟨_, rfl⟩, ⟨_, rfl⟩⟩
        · exact shaped_directGeneration env query ctx _

theorem shaped_processWithFullOrchestration (env : Env) (query : String) :
    Shaped (processWithFullOrchestration env query).1 :=
  shaped_executeIntelligentApproach env query _ _ _

theorem shaped_handleSimpleQuery (env : Env) (query : String) :
    Shaped (handleSimpleQuery env query).1 := by
  unfold handleSimpleQuery
  simp only []
  split
  · exact shaped_processWithFullOrchestration env query
  · split
    · split
      · exact ⟨⟨_, rfl⟩, ⟨_, rfl⟩⟩
      · exact shaped_processWithFullOrchestration env query
    · exact shaped_processWithFullOrchestration env query

theorem shaped_handleAirplaneMode (env : Env) (query : String) :
    Shaped (handleAirplaneMode env query).1 := by
  unfold handleAirplaneMode
  simp only []
  split <;> exact ⟨⟨_, rfl⟩, ⟨_, rfl⟩⟩

theorem lookup_mem {β : Type} (l : List (String × β)) (k : String) (v : β)
    (h : l.lookup k = some v) : (k, v) ∈ l := by
  induction l with
  | nil => cases h
  | cons a t ih =>
      by_cases hk : k = a.1
      · have hbeq : (k == a.1) = true := by simpa using hk
        simp only [List.lookup, hbeq] at h
        cases h
        rw [show a = (a.1, a.2) from rfl, ← hk]
        exact List.mem_cons_self _ _
      · have hbeq : (k == a.1) = false := by simpa using hk
        simp only [List.lookup, hbeq] at h
        exact List.mem_cons_of_mem a (ih h)

theorem qrcGet_some_mem (c : QRC) (now : Nat) (q : String) (r : Dict)
    (h : (c.getCachedResult now q).1 = some r) :
    ∃ ts, (cacheKey q, r, ts) ∈ c.query_cache := by
  unfold QRC.getCachedResult at h
  cases hl : c.query_cache.lookup (cacheKey q) with
  | none => simp [hl] at h
  | some p =>
      rcases p with ⟨res, ts⟩
      simp only [hl] at h
      split at h
      · cases h
        exact ⟨ts, lookup_mem _ _ _ hl⟩
      · simp at h

theorem process_hit (env : Env) (qrc : QRC) (now : Nat) (query : String)
    (r : Dict) (h : (qrc.getCachedResult now query).1 = some r) :
    processQueryMode env qrc now query =
      ⟨r, (qrc.getCachedResult now query).2, ⟨0, 0⟩⟩ := by
  unfold processQueryMode
  rcases hget : qrc.getCachedResult now query with ⟨hit, qrc2⟩
  rw [hget] at h
  simp only at h
  subst h
  simp only []

theorem process_miss (env : Env) (qrc : QRC) (now : Nat) (query : String)
    (h : (qrc.getCachedResult now query).1 = none) :
    processQueryMode env qrc now query =
      processUncached env (qrc.getCachedResult now query).2 now query := by
  unfold processQueryMode
  rcases hget : qrc.getCachedResult now query with ⟨hit, qrc2⟩
  rw [hget] at h
  simp only at h
  subst h
  simp only []

theorem shaped_processStage34 (env : Env) (qrc : QRC) (now : Nat)
    (query : String) (calls0 : Calls) :
    Shaped (processStage34 env qrc now query calls0).result := by
  unfold processStage34
  simp only []
  split
  · exact shaped_processWithFullOrchestration env query
  · split
    · exact shaped_handleAirplaneMode env query
    · exact ⟨⟨_, rfl⟩, ⟨_, rfl⟩⟩

theorem shaped_processUncached (env : Env) (qrc : QRC) (now : Nat)
    (query : String) : Shaped (processUncached env qrc now query).result := by
  unfold processUncached
  simp only []
  split
  · split
    · exact shaped_handleSimpleQuery env query
    · exact shaped_processStage34 env qrc now query _
  · exact shaped_processStage34 env qrc now query ⟨0, 0⟩


/-- A failed structured result: `success=false` and a non-empty log. -/
def FailedWithLog (d : Dict) : Prop :=
  d.isSuccess = false ∧ ∃ s, d.findStr "log" = some s ∧ s ≠ ""

theorem failed_handleExecutionError (env : Env) (hfail : AllFail env)
    (sql error ctx : String) :
    FailedWithLog (handleExecutionError env sql error ctx).1 := by
  obtain ⟨e, he⟩ := hfail (env.correctSQL sql error ctx)
  unfold handleExecutionError
  simp only [he]
  exact ⟨rfl, ⟨_, rfl, by decide⟩⟩

theorem failed_directGeneration (env : Env) (hfail : AllFail env)
    (query ctx : String) (llmModel : JVal) :
    FailedWithLog (directGeneration env query ctx llmModel).1 := by
  obtain ⟨e, he⟩ := hfail (env.genSQL query ctx)
  unfold directGeneration
  simp only [he]
  exact failed_handleExecutionError env hfail _ _ _

theorem failed_iterLoop (env : Env) (hfail : AllFail env)
    (query ctx : String) (llmModel : JVal) (maxIter : Nat) :
    ∀ (remaining iterDone : Nat) (attempts errors : List String),
    FailedWithLog (iterLoop env query ctx llmModel maxIter remaining iterDone
      attempts errors).result := by
  intro remaining
  induction remaining with
  | zero =>
      intro iterDone attempts errors
      refine ⟨rfl, ⟨_, rfl, ?_⟩⟩
      apply str_ne_empty_of_data
      simp only [data_append]
      repeat' apply List.append_ne_nil_of_left_ne_nil
      decide
  | succ remaining ih =>
      intro iterDone attempts errors
      obtain ⟨e, he⟩ := hfail (env.genSQL query (mkIterContext ctx attempts errors))
      unfold iterLoop
      simp only [he]
      exact ih (iterDone + 1) _ _

theorem failed_iterativeRefinement (env : Env) (hfail : AllFail env)
    (query ctx : String) (llmModel : JVal) (maxIter : Nat) :
    FailedWithLog (iterativeRefinement env query ctx llmModel maxIter).result :=
  failed_iterLoop env hfail query ctx llmModel maxIter maxIter 0 [] []

theorem failed_executeIntelligentApproach (env : Env) (hfail : AllFail env)
    (query : String) (approach : Dict) (ctx : String) (intent : Dict) :
    FailedWithLog (executeIntelligentApproach env query approach ctx intent).1 := by
  unfold executeIntelligentApproach
  simp only []
  split
  · split <;>
      first
        | exact failed_iterativeRefinement env hfail query ctx _ _
        | exact ⟨rfl, ⟨_, rfl, by
            apply str_ne_empty_of_data
            simp only [data_append]
            repeat' apply List.append_ne_nil_of_left_ne_nil
            decide⟩⟩
  · split
    · exact failed_iterativeRefinement env hfail query ctx _ _
    · split
      · exact ⟨rfl, ⟨_, rfl, by decide⟩⟩
      · split
        · exact ⟨rfl, ⟨_, rfl, by decide⟩⟩
        · exact failed_directGeneration env hfail query ctx _

theorem failed_processWithFullOrchestration (env : Env) (hfail : AllFail env)
    (query : String) :
    FailedWithLog (processWithFullOrchestration env query).1 :=
  failed_executeIntelligentApproach env hfail query _ _ _

theorem failed_handleSimpleQuery (env : Env) (hfail : AllFail env)
    (query : String) : FailedWithLog (handleSimpleQuery env query).1 := by
  unfold handleSimpleQuery
  simp only []
  split
  · exact failed_processWithFullOrchestration env hfail query
  · split
    · split
      · rename_i results heq
        obtain ⟨e2, he2⟩ := hfail _
        rw [he2] at heq
        cases heq
      · exact failed_processWithFullOrchestration env hfail query
    · exact failed_processWithFullOrchestration env hfail query

theorem failed_handleAirplaneMode (env : Env) (hfail : AllFail env)
    (query : String) : FailedWithLog (handleAirplaneMode env query).1 := by
  unfold handleAirplaneMode
  simp only []
  split
  · rename_i results heq
    obtain ⟨e2, he2⟩ := hfail _
    rw [he2] at heq
    cases heq
  · refine ⟨rfl, ⟨_, rfl, ?_⟩⟩
    apply str_ne_empty_of_data
    simp only [data_append]
    repeat' apply List.append_ne_nil_of_left_ne_nil
    decide


theorem failed_processStage34 (env : Env) (hfail : AllFail env) (qrc : QRC)
    (now : Nat) (query : String) (calls0 : Calls) :
    FailedWithLog (processStage34 env qrc now query calls0).result := by
  unfold processStage34
  simp only []
  split
  · rename_i hsucc
    have hf := (failed_processWithFullOrchestration env hfail query).1
    exact absurd hsucc (by simp [hf])
  · split
    · exact failed_handleAirplaneMode env hfail query
    · exact ⟨rfl, ⟨_, rfl, by decide⟩⟩

theorem failed_processUncached (env : Env) (hfail : AllFail env) (qrc : QRC)
    (now : Nat) (query : String) :
    FailedWithLog (processUncached env qrc now query).result := by
  unfold processUncached
  simp only []
  split
  · split
    · rename_i hsucc
      have hf := (failed_handleSimpleQuery env hfail query).1
      exact absurd hsucc (by simp [hf])
    · exact failed_processStage34 env hfail qrc now query _
  · exact failed_processStage34 env hfail qrc now query ⟨0, 0⟩

/-- C1: for every request and every behaviour of the external
collaborators, `process_query_mode` returns a structured result dict
carrying a boolean `success` flag and a string `log` (it is a total
function: no exception crosses the pipeline boundary), and when every
stage has been exhausted — simulated by every execution call failing, with
nothing cached — it returns `success=false` with a non-empty log carrying
the error information. -/
theorem process_query_mode_total (env : Env) (qrc : QRC) (now : Nat)
    (query : String) (hcache : CacheShaped qrc) :
    Shaped (processQueryMode env qrc now query).result ∧
    (AllFail env → qrc.query_cache = [] →
      FailedWithLog (processQueryMode env qrc now query).result) := by
  constructor
  · cases hhit : (qrc.getCachedResult now query).1 with
    | some r =>
        rw [process_hit env qrc now query r hhit]
        obtain ⟨ts, hmem⟩ := qrcGet_some_mem qrc now query r hhit
        exact hcache _ hmem
    | none =>
        rw [process_miss env qrc now query hhit]
        exact shaped_processUncached env _ now query
  · intro hfail hempty
    have hmiss : (qrc.getCachedResult now query).1 = none := by
      unfold QRC.getCachedResult
      simp [hempty]
    rw [process_miss env qrc now query hmiss]
    exact failed_processUncached env hfail _ now query

/-- An environment in which the database executor always raises and the
metadata fetch yields nothing. -/
def envAllDown : Env :=
  ⟨[], fun _ _ => [], fun _ => "", fun _ _ _ => [], fun _ _ => "X",
    fun _ => .error "boom", fun _ _ _ => "Y", fun _ _ _ _ => []⟩

/-- Witness for C1 with every collaborator failing on a fresh agent. -/
theorem process_query_mode_total_witness :
    Shaped (processQueryMode envAllDown (QRC.init 3600) 0 "hello there").result ∧
    FailedWithLog
      (processQueryMode envAllDown (QRC.init 3600) 0 "hello there").result := by
  have h := process_query_mode_total envAllDown (QRC.init 3600) 0 "hello there"
    (by intro p hp; simp [QRC.init] at hp)
  exact ⟨h.1, h.2 (fun sql => ⟨"boom", rfl⟩) rfl⟩


/-! ## C6: which successful stages write through to the cache -/

theorem cacheResult_lookup (c : QRC) (now : Nat) (q : String) (r : Dict) :
    (c.cacheResult now q r).query_cache.lookup (cacheKey q) = some (r, now) := by
  unfold QRC.cacheResult
  simp [List.lookup]

theorem cacheResult_ttl (c : QRC) (now : Nat) (q : String) (r : Dict) :
    (c.cacheResult now q r).cache_ttl = c.cache_ttl := rfl

theorem qrcGet_ttl (c : QRC) (now : Nat) (q : String) :
    (c.getCachedResult now q).2.cache_ttl = c.cache_ttl := by
  unfold QRC.getCachedResult
  cases hl : c.query_cache.lookup (cacheKey q) with
  | none => simp only [hl]
  | some p =>
      rcases p with ⟨res, ts⟩
      simp only [hl]
      split <;> rfl

/-- The airplane-mode handler labels its results
`airplane_mode` / `airplane_mode_failed`. -/
theorem handleAirplaneMode_approach (env : Env) (query : String) :
    (handleAirplaneMode env query).1.findStr "approach" =
        some "airplane_mode" ∨
      (handleAirplaneMode env query).1.isSuccess = false := by
  unfold handleAirplaneMode
  simp only []
  split
  · exact Or.inl rfl
  · exact Or.inr rfl

/-- A successful, non-airplane-mode result of stages 3-4 has been written
to the result cache; the TTL is unchanged. -/
theorem processStage34_store (env : Env) (qrc : QRC) (now : Nat)
    (query : String) (calls0 : Calls)
    (hsucc : (processStage34 env qrc now query calls0).result.isSuccess = true)
    (hnotair : (processStage34 env qrc now query calls0).result.findStr
      "approach" ≠ some "airplane_mode") :
    (processStage34 env qrc now query calls0).qrc.query_cache.lookup
      (cacheKey query) =
      some ((processStage34 env qrc now query calls0).result, now) ∧
    (processStage34 env qrc now query calls0).qrc.cache_ttl =
      qrc.cache_ttl := by
  by_cases horch : (processWithFullOrchestration env query).1.isSuccess = true
  · have heq : processStage34 env qrc now query calls0 =
        ⟨(processWithFullOrchestration env query).1,
          storeInCache qrc now query (processWithFullOrchestration env query).1,
          Calls.add calls0 (processWithFullOrchestration env query).2⟩ := by
      unfold processStage34
      simp only []
      rw [if_pos horch]
    rw [heq]
    simp only [storeInCache, horch, if_true]
    exact ⟨cacheResult_lookup qrc now query _, rfl⟩
  · by_cases hair : (shouldUseAirplaneMode query).1 = true
    · have heq : processStage34 env qrc now query calls0 =
          ⟨(handleAirplaneMode env query).1, qrc,
            Calls.add (Calls.add calls0 (processWithFullOrchestration env query).2)
              (handleAirplaneMode env query).2⟩ := by
        unfold processStage34
        simp only []
        rw [if_neg horch, if_pos hair]
      rw [heq] at hsucc hnotair
      simp only [] at hsucc hnotair
      rcases handleAirplaneMode_approach env query with hap | hfl
      · exact absurd hap hnotair
      · rw [hfl] at hsucc
        cases hsucc
    · have heq : processStage34 env qrc now query calls0 =
          ⟨genericFallbackDict, qrc,
            Calls.add calls0 (processWithFullOrchestration env query).2⟩ := by
        unfold processStage34
        simp only []
        rw [if_neg horch, if_neg hair]
      rw [heq] at hsucc
      simp only [] at hsucc
      exact absurd hsucc (by decide)

/-- A successful, non-airplane-mode uncached result has been written to the
result cache under the normalized request key, stamped with the current
time; the cache TTL is unchanged. -/
theorem processUncached_store (env : Env) (qrc : QRC) (now : Nat)
    (query : String)
    (hsucc : (processUncached env qrc now query).result.isSuccess = true)
    (hnotair : (processUncached env qrc now query).result.findStr "approach" ≠
      some "airplane_mode") :
    (processUncached env qrc now query).qrc.query_cache.lookup
      (cacheKey query) = some ((processUncached env qrc now query).result, now) ∧
    (processUncached env qrc now query).qrc.cache_ttl = qrc.cache_ttl := by
  by_cases hsimple : isSimpleQuery query = true
  · by_cases hfast : (handleSimpleQuery env query).1.isSuccess = true
    · have heq : processUncached env qrc now query =
          ⟨(handleSimpleQuery env query).1,
            storeInCache qrc now query (handleSimpleQuery env query).1,
            (handleSimpleQuery env query).2⟩ := by
        unfold processUncached
        simp only []
        rw [if_pos hsimple, if_pos hfast]
      rw [heq]
      simp only [storeInCache, hfast, if_true]
      exact ⟨cacheResult_lookup qrc now query _, rfl⟩
    · have heq : processUncached env qrc now query =
          processStage34 env qrc now query (handleSimpleQuery env query).2 := by
        unfold processUncached
        simp only []
        rw [if_pos hsimple, if_neg hfast]
      rw [heq] at hsucc hnotair ⊢
      exact processStage34_store env qrc now query _ hsucc hnotair
  · have heq : processUncached env qrc now query =
        processStage34 env qrc now query ⟨0, 0⟩ := by
      unfold processUncached
      simp only []
      rw [if_neg hsimple]
    rw [heq] at hsucc hnotair ⊢
    exact processStage34_store env qrc now query _ hsucc hnotair


/-- C6 (amended): after a cache miss, every successful result of the fast
path or the full orchestration is written through to the ResultCache
(keyed by the normalized request, stamped with the call time) before being
returned; a success produced by the airplane-mode handler — the only other
success-producing stage — is excluded, because it is returned without
being cached. -/
theorem success_written_through (env : Env) (qrc : QRC) (now : Nat)
    (query : String)
    (hmiss : (qrc.getCachedResult now query).1 = none)
    (hsucc : (processQueryMode env qrc now query).result.isSuccess = true)
    (hnotair : (processQueryMode env qrc now query).result.findStr
      "approach" ≠ some "airplane_mode") :
    (processQueryMode env qrc now query).qrc.query_cache.lookup
      (cacheKey query) =
      some ((processQueryMode env qrc now query).result, now) := by
  rw [process_miss env qrc now query hmiss] at hsucc hnotair ⊢
  exact (processUncached_store env _ now query hsucc hnotair).1

/-- An environment in which generation produces a fixed candidate and the
executor succeeds on every query. -/
def envExecOk : Env :=
  ⟨[], fun _ _ => [], fun _ => "", fun _ _ _ => [], fun _ _ => "X",
    fun _ => .ok [], fun _ _ _ => "Y", fun _ _ _ _ => []⟩

/-- Witness for C6 (amended): a request answered by full orchestration is
found in the cache afterwards. -/
theorem success_written_through_witness :
    (processQueryMode envExecOk (QRC.init 3600) 0 "hello there").qrc.query_cache.lookup
      (cacheKey "hello there") =
      some ((processQueryMode envExecOk (QRC.init 3600) 0 "hello there").result, 0) := by
  exact success_written_through envExecOk (QRC.init 3600) 0 "hello there"
    (by rfl) (by rfl) (by decide)

/-- An environment in which the executor succeeds only on the hardcoded
airplane-mode customer-count statement and every other execution raises. -/
def envAirplaneOnly : Env :=
  ⟨[], fun _ _ => [], fun _ => "", fun _ _ _ => [], fun _ _ => "X",
    fun sql =>
      if sql = "SELECT COUNT(*) AS customer_count FROM SalesLT.Customer" then
        .ok [.n 42]
      else .error "db down",
    fun _ _ _ => "Y", fun _ _ _ _ => []⟩

set_option maxRecDepth 10000 in
/-- C6 counterexample: the airplane-mode stage produces a successful result
for "count customers" (after the fast path and orchestration fail), yet
the cache remains empty — the successful stage did not write through to
the ResultCache before returning. -/
theorem success_written_through_cex :
    (processQueryMode envAirplaneOnly (QRC.init 3600) 0
      "count customers").result.isSuccess = true ∧
    (processQueryMode envAirplaneOnly (QRC.init 3600) 0
      "count customers").result.findStr "approach" = some "airplane_mode" ∧
    (processQueryMode envAirplaneOnly (QRC.init 3600) 0
      "count customers").qrc.query_cache.length = 0 := by
  refine ⟨?_, ?_, ?_⟩ <;> decide


/-! ## C7: replaying a request from the cache -/

/-- C7 (amended): after a cache miss, if the first call returns a
successful result through a cache-writing stage (fast path or full
orchestration — not airplane mode), then a second call for the same
request within the TTL window returns the identical payload and invokes
the generation and execution collaborators zero times. -/
theorem cached_replay (env : Env) (qrc : QRC) (now1 now2 : Nat)
    (query : String)
    (hmiss : (qrc.getCachedResult now1 query).1 = none)
    (hsucc : (processQueryMode env qrc now1 query).result.isSuccess = true)
    (hnotair : (processQueryMode env qrc now1 query).result.findStr
      "approach" ≠ some "airplane_mode")
    (hfresh : now2 - now1 < qrc.cache_ttl) :
    (processQueryMode env (processQueryMode env qrc now1 query).qrc now2
      query).result = (processQueryMode env qrc now1 query).result ∧
    (processQueryMode env (processQueryMode env qrc now1 query).qrc now2
      query).calls = ⟨0, 0⟩ := by
  rw [process_miss env qrc now1 query hmiss] at hsucc hnotair
  have hst := processUncached_store env (qrc.getCachedResult now1 query).2
    now1 query hsucc hnotair
  have hstore : (processQueryMode env qrc now1 query).qrc.query_cache.lookup
      (cacheKey query) =
      some ((processQueryMode env qrc now1 query).result, now1) := by
    rw [process_miss env qrc now1 query hmiss]
    exact hst.1
  have httl : (processQueryMode env qrc now1 query).qrc.cache_ttl =
      qrc.cache_ttl := by
    rw [process_miss env qrc now1 query hmiss, hst.2]
    exact qrcGet_ttl qrc now1 query
  have hget := qrcGet_hit (processQueryMode env qrc now1 query).qrc now2 query
    (processQueryMode env qrc now1 query).result now1 hstore
    (by rw [httl]; exact hfresh)
  have hhit : ((processQueryMode env qrc now1 query).qrc.getCachedResult
      now2 query).1 = some (processQueryMode env qrc now1 query).result := by
    rw [hget]
  rw [process_hit env (processQueryMode env qrc now1 query).qrc now2 query
    (processQueryMode env qrc now1 query).result hhit]
  exact ⟨rfl, rfl⟩

/-- Witness for C7 (amended): replay of an orchestration-answered request
is served from the cache with zero generator/executor calls. -/
theorem cached_replay_witness :
    (processQueryMode envExecOk
      (processQueryMode envExecOk (QRC.init 3600) 0 "hello there").qrc 10
      "hello there").result =
      (processQueryMode envExecOk (QRC.init 3600) 0 "hello there").result ∧
    (processQueryMode envExecOk
      (processQueryMode envExecOk (QRC.init 3600) 0 "hello there").qrc 10
      "hello there").calls = ⟨0, 0⟩ := by
  exact cached_replay envExecOk (QRC.init 3600) 0 10 "hello there"
    (by rfl) (by rfl) (by decide) (by decide)

set_option maxRecDepth 10000 in
/-- C7 counterexample: a request answered successfully by airplane mode is
not cached, so an immediate second call within the TTL window re-runs the
pipeline and invokes the execution collaborator again instead of making
zero generator/executor calls. -/
theorem cached_replay_cex :
    (processQueryMode envAirplaneOnly (QRC.init 3600) 0
      "count customers").result.isSuccess = true ∧
    (1 : Nat) - 0 < 3600 ∧
    (processQueryMode envAirplaneOnly
      (processQueryMode envAirplaneOnly (QRC.init 3600) 0
        "count customers").qrc 1 "count customers").calls.exec ≠ 0 := by
  refine ⟨?_, ?_, ?_⟩ <;> decide


/-! ## C5: when the generic terminal response is returned -/

theorem handleAirplaneMode_schema_used (env : Env) (query : String) :
    (handleAirplaneMode env query).1.findStr "schema_used" =
      some "hardcoded" := by
  unfold handleAirplaneMode
  simp only []
  split <;> rfl

theorem processStage34_generic (env : Env) (qrc : QRC) (now : Nat)
    (query : String) (calls0 : Calls)
    (h : (processStage34 env qrc now query calls0).result =
      genericFallbackDict) :
    (shouldUseAirplaneMode query).1 = false := by
  by_cases horch : (processWithFullOrchestration env query).1.isSuccess = true
  · exfalso
    have heq : (processStage34 env qrc now query calls0).result =
        (processWithFullOrchestration env query).1 := by
      unfold processStage34
      simp only []
      rw [if_pos horch]
    rw [heq] at h
    have := congrArg Dict.isSuccess h
    rw [horch] at this
    exact absurd this.symm (by decide)
  · by_cases hair : (shouldUseAirplaneMode query).1 = true
    · exfalso
      have heq : (processStage34 env qrc now query calls0).result =
          (handleAirplaneMode env query).1 := by
        unfold processStage34
        simp only []
        rw [if_neg horch, if_pos hair]
      rw [heq] at h
      have := congrArg (fun d => Dict.findStr d "schema_used") h
      rw [show (fun d => Dict.findStr d "schema_used")
            (handleAirplaneMode env query).1 =
          (handleAirplaneMode env query).1.findStr "schema_used" from rfl,
        handleAirplaneMode_schema_used env query] at this
      exact absurd this (by decide)
    · simpa using hair

theorem processUncached_generic (env : Env) (qrc : QRC) (now : Nat)
    (query : String)
    (h : (processUncached env qrc now query).result = genericFallbackDict) :
    (shouldUseAirplaneMode query).1 = false := by
  by_cases hsimple : isSimpleQuery query = true
  · by_cases hfast : (handleSimpleQuery env query).1.isSuccess = true
    · exfalso
      have heq : (processUncached env qrc now query).result =
          (handleSimpleQuery env query).1 := by
        unfold processUncached
        simp only []
        rw [if_pos hsimple, if_pos hfast]
      rw [heq] at h
      have := congrArg Dict.isSuccess h
      rw [hfast] at this
      exact absurd this.symm (by decide)
    · have heq : processUncached env qrc now query =
          processStage34 env qrc now query (handleSimpleQuery env query).2 := by
        unfold processUncached
        simp only []
        rw [if_pos hsimple, if_neg hfast]
      rw [heq] at h
      exact processStage34_generic env qrc now query _ h
  · have heq : processUncached env qrc now query =
        processStage34 env qrc now query ⟨0, 0⟩ := by
      unfold processUncached
      simp only []
      rw [if_neg hsimple]
    rw [heq] at h
    exact processStage34_generic env qrc now query _ h

/-- C5 (amended): the generic terminal response is returned exactly when,
after the cache, the fast path and the full orchestration have all failed,
`should_use_airplane_mode` rejects the request — whether as
high-complexity or as unknown; no forced fallback attempt is made first.
Conversely, a generic terminal response can only arise from such a
rejection. -/
theorem generic_fallback_condition (env : Env) (qrc : QRC) (now : Nat)
    (query : String)
    (hwf : ∀ p ∈ qrc.query_cache, (p.2.1 : Dict).isSuccess = true) :
    ((processQueryMode env qrc now query).result = genericFallbackDict →
      (shouldUseAirplaneMode query).1 = false) ∧
    ((qrc.getCachedResult now query).1 = none →
      (isSimpleQuery query = true →
        (handleSimpleQuery env query).1.isSuccess = false) →
      (processWithFullOrchestration env query).1.isSuccess = false →
      (shouldUseAirplaneMode query).1 = false →
      (processQueryMode env qrc now query).result = genericFallbackDict) := by
  constructor
  · intro h
    cases hhit : (qrc.getCachedResult now query).1 with
    | some r =>
        exfalso
        rw [process_hit env qrc now query r hhit] at h
        simp only [] at h
        obtain ⟨ts, hmem⟩ := qrcGet_some_mem qrc now query r hhit
        have hs := hwf _ hmem
        rw [h] at hs
        exact absurd (show genericFallbackDict.isSuccess = true from hs)
          (by decide)
    | none =>
        rw [process_miss env qrc now query hhit] at h
        exact processUncached_generic env _ now query h
  · intro hmiss hfastfail horchfail hreject
    rw [process_miss env qrc now query hmiss]
    have hstage : processStage34 env (qrc.getCachedResult now query).2 now
        query = fun c => ⟨genericFallbackDict,
          (qrc.getCachedResult now query).2,
          Calls.add c (processWithFullOrchestration env query).2⟩ := by
      funext c
      unfold processStage34
      simp only []
      rw [if_neg (by simp [horchfail]), if_neg (by simp [hreject])]
    by_cases hsimple : isSimpleQuery query = true
    · have heq : processUncached env (qrc.getCachedResult now query).2 now
          query = processStage34 env (qrc.getCachedResult now query).2 now
          query (handleSimpleQuery env query).2 := by
        unfold processUncached
        simp only []
        rw [if_pos hsimple, if_neg (by simp [hfastfail hsimple])]
      rw [heq, hstage]
    · have heq : processUncached env (qrc.getCachedResult now query).2 now
          query = processStage34 env (qrc.getCachedResult now query).2 now
          query ⟨0, 0⟩ := by
        unfold processUncached
        simp only []
        rw [if_neg hsimple]
      rw [heq, hstage]

/-- Witness for C5 (amended): with every collaborator failing, the
complex-pattern request "subquery" ends in the generic terminal
response. -/
theorem generic_fallback_condition_witness :
    (processQueryMode envAllDown (QRC.init 3600) 0 "subquery").result =
      genericFallbackDict := by
  exact (generic_fallback_condition envAllDown (QRC.init 3600) 0 "subquery"
      (by intro p hp; simp [QRC.init] at hp)).2
    (by rfl) (fun h => absurd h (by decide)) (by decide) (by decide)

set_option maxRecDepth 10000 in
/-- C5 counterexample: the router rejects "subquery" as *high-complexity*
(not as unknown), yet after orchestration fails the pipeline returns the
generic terminal response immediately — no forced fallback attempt exists
— contradicting the claim that the generic response is returned only for
an "unknown" rejection whose forced fallback attempt also failed. -/
theorem generic_fallback_condition_cex :
    (shouldUseAirplaneMode "subquery").1 = false ∧
    (shouldUseAirplaneMode "subquery").2.2.findStr "complexity" =
      some "high" ∧
    (processQueryMode envAllDown (QRC.init 3600) 0
      "subquery").result.findStr "approach" = some "generic_fallback" ∧
    (processQueryMode envAllDown (QRC.init 3600) 0
      "subquery").result.isSuccess = false := by
  refine ⟨?_, ?_, ?_, ?_⟩ <;> decide

end NL2SQL
